import Mathlib

/-!
Verification development for the `ai-safety-orchestrator` pipeline.

The Python sources under `src/orchestrator/` (pipeline.py, guidance_engine.py,
devspec_runner.py, models.py) are shallowly embedded below: pure Python string
functions become Lean functions on `String` (represented through `String.data :
List Char`), Python `re.search` calls become a small executable regular
expression engine (`RE`, `reSearch`), and each pipeline function is translated
clause by clause.  Theorems about the embedded definitions settle the frozen
claims about the specification.
-/

namespace Orchestrator

/-! ### Python-style character and string primitives -/

/-- Whitespace characters stripped by Python `str.strip()` and matched by
regex `\s` (ASCII fragment). -/
def isPySpace (c : Char) : Bool :=
  c = ' ' || c = '\t' || c = '\n' || c = '\r' || c = '\x0b' || c = '\x0c'

/-- Characters matched by the regex class `[A-Z]`. -/
def isUpperAZ (c : Char) : Bool := 'A' ≤ c && c ≤ 'Z'

/-- Characters matched by the regex class `[A-Z_0-9]` (the CODE field class). -/
def isCodeChar (c : Char) : Bool := isUpperAZ c || c = '_' || ('0' ≤ c && c ≤ '9')

/-- Characters matched by the regex class `\w` : `[a-zA-Z0-9_]`. -/
def isWordChar (c : Char) : Bool :=
  ('a' ≤ c && c ≤ 'z') || ('A' ≤ c && c ≤ 'Z') || ('0' ≤ c && c ≤ '9') || c = '_'

/-- Python `str.lower()` (ASCII-faithful). -/
def pyLower (s : String) : String := ⟨s.data.map Char.toLower⟩

/-- Python `str.upper()` (ASCII-faithful). -/
def pyUpper (s : String) : String := ⟨s.data.map Char.toUpper⟩

/-- Strip leading and trailing Python whitespace from a character list. -/
def pyStripL (s : List Char) : List Char :=
  ((s.dropWhile isPySpace).reverse.dropWhile isPySpace).reverse

/-- Python `str.strip()`. -/
def pyStrip (s : String) : String := ⟨pyStripL s.data⟩

/-- Boolean list-prefix test (needle first). -/
def startsWithL : List Char → List Char → Bool
  | [], _ => true
  | _ :: _, [] => false
  | a :: as, b :: bs => a = b && startsWithL as bs

/-- Boolean substring test on character lists (needle second). -/
def containsSub : List Char → List Char → Bool
  | hay, nd =>
    startsWithL nd hay ||
      match hay with
      | [] => false
      | _ :: t => containsSub t nd

/-- Python `needle in hay` substring test. -/
def strContains (hay needle : String) : Bool := containsSub hay.data needle.data

/-- Python `str.startswith`. -/
def strStartsWith (s pre : String) : Bool := startsWithL pre.data s.data

/-- Python `str.replace(pat, rep)` on character lists: replaces every
(leftmost, non-overlapping) occurrence of `pat`. -/
def replaceAll (pat rep : List Char) : List Char → List Char
  | [] => []
  | c :: t =>
    if pat ≠ [] && startsWithL pat (c :: t) then
      rep ++ replaceAll pat rep (t.drop (pat.length - 1))
    else
      c :: replaceAll pat rep t
termination_by s => s.length
decreasing_by
  · simp only [List.length_drop, List.length_cons]
    omega
  · simp only [List.length_cons]
    omega

/-- Split a character list at every character satisfying `p`
(Python `str.split(sep)` semantics: `n` separators yield `n+1` pieces). -/
def splitBy (p : Char → Bool) : List Char → List (List Char)
  | [] => [[]]
  | c :: t =>
    let r := splitBy p t
    if p c then [] :: r
    else
      match r with
      | [] => [[c]]
      | h :: rt => (c :: h) :: rt

/-- Join character lists with a newline between consecutive pieces
(inverse of splitting on `'\n'`). -/
def joinNL : List (List Char) → List Char
  | [] => []
  | [l] => l
  | l :: ls => l ++ '\n' :: joinNL ls

/-- Python `str.split()` word count: split on whitespace, drop empty pieces. -/
def pyWordCount (s : String) : Nat :=
  ((splitBy isPySpace s.data).filter (fun w => !w.isEmpty)).length

/-- Python `"\n".join(xs)`. -/
def joinLines : List String → String
  | [] => ""
  | [x] => x
  | x :: rest => x ++ "\n" ++ joinLines rest

/-! ### A small regular-expression engine

Just enough of Python `re` to express the patterns used by the source:
literals, alternation, concatenation, `.` (any char except newline), the
classes `\s`, `\w` and `["']`, `*`, `?` and bounded repetition `{0,n}`.
`matchRE r s` returns every suffix of `s` left over after some match of `r`
against a prefix of `s`; `reSearch` is Python `re.search` as a Boolean. -/

inductive RE where
  | eps : RE
  | chr : Char → RE
  | dot : RE
  | cls : List Char → RE
  | ws : RE
  | wd : RE
  | seq : RE → RE → RE
  | alt : RE → RE → RE
  | star : RE → RE
  | opt : RE → RE
  | rep : Nat → RE → RE
deriving Repr

/-- Iterate a one-step matcher at most `fuel` times, keeping only
terminating (strictly consuming) iterations; used for `star`. -/
def starMatch (m : List Char → List (List Char)) : Nat → List Char → List (List Char)
  | 0, s => [s]
  | fuel + 1, s =>
    s :: ((m s).filter (fun t => t.length < s.length)).flatMap (starMatch m fuel)

/-- Iterate a one-step matcher between `0` and `n` times; used for `rep`. -/
def repMatch (m : List Char → List (List Char)) : Nat → List Char → List (List Char)
  | 0, s => [s]
  | n + 1, s => s :: (m s).flatMap (repMatch m n)

/-- All suffixes remaining after matching `r` against a prefix of the input. -/
def matchRE : RE → List Char → List (List Char)
  | .eps, s => [s]
  | .chr _, [] => []
  | .chr c, x :: xs => if x = c then [xs] else []
  | .dot, [] => []
  | .dot, x :: xs => if x = '\n' then [] else [xs]
  | .cls _, [] => []
  | .cls cs, x :: xs => if cs.contains x then [xs] else []
  | .ws, [] => []
  | .ws, x :: xs => if isPySpace x then [xs] else []
  | .wd, [] => []
  | .wd, x :: xs => if isWordChar x then [xs] else []
  | .seq a b, s => (matchRE a s).flatMap (fun t => matchRE b t)
  | .alt a b, s => matchRE a s ++ matchRE b s
  | .star r, s => starMatch (matchRE r) s.length s
  | .opt r, s => s :: matchRE r s
  | .rep n r, s => repMatch (matchRE r) n s

/-- Does `r` match starting at some position of the input (list form)? -/
def reSearchL (r : RE) : List Char → Bool
  | [] => !(matchRE r []).isEmpty
  | x :: xs => !(matchRE r (x :: xs)).isEmpty || reSearchL r xs

/-- Python `bool(re.search(r, s))`. -/
def reSearch (r : RE) (s : String) : Bool := reSearchL r s.data

/-- Literal string as a regex. -/
def lit (s : String) : RE := s.data.foldr (fun c r => RE.seq (RE.chr c) r) RE.eps

/-- Concatenation of a pattern list. -/
def rcat : List RE → RE
  | [] => RE.eps
  | [r] => r
  | r :: rs => RE.seq r (rcat rs)

/-- Alternation of a pattern list (empty list never matches). -/
def ralt : List RE → RE
  | [] => RE.cls []
  | [r] => r
  | r :: rs => RE.alt r (ralt rs)

/-- The regex fragment `.*`. -/
def dotStar : RE := RE.star RE.dot

/-- The regex fragment `\w+`. -/
def wordPlus : RE := RE.seq RE.wd (RE.star RE.wd)

/-- The apostrophe character (from the pattern fragment `don\'t`). -/
def apos : Char := Char.ofNat 39

/-- The regex class `["']`. -/
def quoteCls : RE := RE.cls ['"', apos]

/-! ### Data model (models.py) -/

/-- A single finding from the dev-spec-kit security checker
(`models.DevSpecFinding`). -/
structure DevSpecFinding where
  category : String := "UNKNOWN"
  severity : String := "UNKNOWN"
  code : String := "UNKNOWN"
  message : String := ""
  suggestion : String := ""
deriving DecidableEq, Repr

/-- Structured spec elements extracted by spec-kit (`models.SpecKitStructure`). -/
structure SpecKitStructure where
  features : List String := []
  entities : List String := []
  flows : List String := []
  configuration : List String := []
  error_handling : List String := []
  testing : List String := []
  logging : List String := []
  authentication : List String := []
  data_storage : List String := []
deriving DecidableEq, Repr

/-- Additional guidance generated on top of findings (`models.GuidanceItem`). -/
structure GuidanceItem where
  title : String
  detail : String
deriving DecidableEq, Repr

/-! ### Finding suppressor (pipeline.filter_false_positives)

Each Python `re.search(r'...', prompt_lower)` is transcribed into an `RE`
pattern below, named after its role in `filter_false_positives`. -/

/-- Pattern `environment variables|env vars?|\.env\s*file`. -/
def patEnvA : RE := ralt [lit "environment variables",
  rcat [lit "env var", RE.opt (RE.chr 's')],
  rcat [lit ".env", RE.star RE.ws, lit "file"]]

/-- Pattern `never.*code|not.*checked.*into|config.*not.*source|do not include|loaded strictly from`. -/
def patEnvB : RE := ralt [
  rcat [lit "never", dotStar, lit "code"],
  rcat [lit "not", dotStar, lit "checked", dotStar, lit "into"],
  rcat [lit "config", dotStar, lit "not", dotStar, lit "source"],
  lit "do not include",
  lit "loaded strictly from"]

/-- Pattern `hash.*bcrypt|bcrypt|argon2|pbkdf2|scrypt`. -/
def patHashing : RE := ralt [rcat [lit "hash", dotStar, lit "bcrypt"],
  lit "bcrypt", lit "argon2", lit "pbkdf2", lit "scrypt"]

/-- Pattern `https|tls|ssl|secure.*connection`. -/
def patHttps : RE := ralt [lit "https", lit "tls", lit "ssl",
  rcat [lit "secure", dotStar, lit "connection"]]

/-- Pattern `input validation|validate.*input|pydantic|sanitize`. -/
def patValidation : RE := ralt [lit "input validation",
  rcat [lit "validate", dotStar, lit "input"], lit "pydantic", lit "sanitize"]

/-- Pattern `prepared statement|parameterized.*quer|orm|parameter binding`. -/
def patPrepared : RE := ralt [lit "prepared statement",
  rcat [lit "parameterized", dotStar, lit "quer"], lit "orm", lit "parameter binding"]

/-- Pattern `never.*plain.*text.*password|hash.*password`. -/
def patNoPlaintext : RE := ralt [
  rcat [lit "never", dotStar, lit "plain", dotStar, lit "text", dotStar, lit "password"],
  rcat [lit "hash", dotStar, lit "password"]]

/-- Pattern `do not.*debug|never.*debug.*endpoint|no debug endpoint`. -/
def patNoDebug : RE := ralt [rcat [lit "do not", dotStar, lit "debug"],
  rcat [lit "never", dotStar, lit "debug", dotStar, lit "endpoint"],
  lit "no debug endpoint"]

/-- Pattern `do not include.*(password|secret)|no.*(password|secret).*anywhere`. -/
def patNoPasswords : RE := ralt [
  rcat [lit "do not include", dotStar, ralt [lit "password", lit "secret"]],
  rcat [lit "no", dotStar, ralt [lit "password", lit "secret"], dotStar, lit "anywhere"]]

/-- Pattern `md5.*(checksum|duplicate|simple|lightweight)|md5.*not.*password|md5.*not.*auth|md5.*not.*token`. -/
def patMd5Checksums : RE := ralt [
  rcat [lit "md5", dotStar, ralt [lit "checksum", lit "duplicate", lit "simple", lit "lightweight"]],
  rcat [lit "md5", dotStar, lit "not", dotStar, lit "password"],
  rcat [lit "md5", dotStar, lit "not", dotStar, lit "auth"],
  rcat [lit "md5", dotStar, lit "not", dotStar, lit "token"]]

/-- Pattern `(do not|don't|never|must not).*expose.*(debug|environment|config)`. -/
def patNegExpose : RE := rcat [
  ralt [lit "do not", rcat [lit "don", RE.chr apos, lit "t"], lit "never", lit "must not"],
  dotStar, lit "expose", dotStar,
  ralt [lit "debug", lit "environment", lit "config"]]

/-- Pattern `but (do )?not.*debug.*endpoint`. -/
def patButNotDebug : RE := rcat [lit "but ", RE.opt (lit "do "), lit "not",
  dotStar, lit "debug", dotStar, lit "endpoint"]

/-- Pattern `skip.*validation|without.*validation|no.*validation`. -/
def patSkipValidation : RE := ralt [
  rcat [lit "skip", dotStar, lit "validation"],
  rcat [lit "without", dotStar, lit "validation"],
  rcat [lit "no", dotStar, lit "validation"]]

/-- Pattern `use.*["']\w+["']|hardcode.*["']\w+["']|secret.*=.*["']`. -/
def patHardUse : RE := ralt [
  rcat [lit "use", dotStar, quoteCls, wordPlus, quoteCls],
  rcat [lit "hardcode", dotStar, quoteCls, wordPlus, quoteCls],
  rcat [lit "secret", dotStar, RE.chr '=', dotStar, quoteCls]]

/-- Pattern `(none|should not|must not).*(be )?hardcoded`. -/
def patNoneHardcoded : RE := rcat [ralt [lit "none", lit "should not", lit "must not"],
  dotStar, RE.opt (lit "be "), lit "hardcoded"]

/-- Pattern `not related to.*(token|jwt)|this is not.*(token|jwt)`. -/
def patNotAboutTokens : RE := ralt [
  rcat [lit "not related to", dotStar, ralt [lit "token", lit "jwt"]],
  rcat [lit "this is not", dotStar, ralt [lit "token", lit "jwt"]]]

/-- Pattern `store (jwt|token) (in|to) (file|json)|save (jwt|token) (in|to) (file|json)`. -/
def patStoresTokens : RE := ralt [
  rcat [lit "store ", ralt [lit "jwt", lit "token"], lit " ",
    ralt [lit "in", lit "to"], lit " ", ralt [lit "file", lit "json"]],
  rcat [lit "save ", ralt [lit "jwt", lit "token"], lit " ",
    ralt [lit "in", lit "to"], lit " ", ralt [lit "file", lit "json"]]]

/-- Pattern `profile json|user.*json|data.*json`. -/
def patProfileJson : RE := ralt [lit "profile json",
  rcat [lit "user", dotStar, lit "json"],
  rcat [lit "data", dotStar, lit "json"]]

/-- Pattern `store.{0,20}jwt|jwt.{0,20}(file|storage)`. -/
def patStoresJwt : RE := ralt [
  rcat [lit "store", RE.rep 20 RE.dot, lit "jwt"],
  rcat [lit "jwt", RE.rep 20 RE.dot, ralt [lit "file", lit "storage"]]]

/-- Pattern `(debug|diagnostic).*should not return.*(secret|sensitive|environment)`. -/
def patDebugNoReturn : RE := rcat [ralt [lit "debug", lit "diagnostic"],
  dotStar, lit "should not return", dotStar,
  ralt [lit "secret", lit "sensitive", lit "environment"]]

/-- Pattern `(debug|diagnostic).*endpoint.*returns.*(file id|processing id|update id|last.*id|numerical id)`. -/
def patDebugIdsOnly : RE := rcat [ralt [lit "debug", lit "diagnostic"],
  dotStar, lit "endpoint", dotStar, lit "returns", dotStar,
  ralt [lit "file id", lit "processing id", lit "update id",
    rcat [lit "last", dotStar, lit "id"], lit "numerical id"]]

/-- Pattern `implement.*auth|login.*endpoint|auth.*flow|session.*management|jwt|oauth|sso`. -/
def patAuthImpl : RE := ralt [
  rcat [lit "implement", dotStar, lit "auth"],
  rcat [lit "login", dotStar, lit "endpoint"],
  rcat [lit "auth", dotStar, lit "flow"],
  rcat [lit "session", dotStar, lit "management"],
  lit "jwt", lit "oauth", lit "sso"]

/-- Pattern `do not include.*password|no.*password.*anywhere`. -/
def patOnlyNegative : RE := ralt [
  rcat [lit "do not include", dotStar, lit "password"],
  rcat [lit "no", dotStar, lit "password", dotStar, lit "anywhere"]]

/-- Pattern `skip.*auth|no.*auth.*needed|without.*auth|assume.*trusted`. -/
def patSkipAuth : RE := ralt [
  rcat [lit "skip", dotStar, lit "auth"],
  rcat [lit "no", dotStar, lit "auth", dotStar, lit "needed"],
  rcat [lit "without", dotStar, lit "auth"],
  rcat [lit "assume", dotStar, lit "trusted"]]

/-- Pattern `internal.*service|internal.*tool|receives.*from.*microservice`. -/
def patInternal : RE := ralt [
  rcat [lit "internal", dotStar, lit "service"],
  rcat [lit "internal", dotStar, lit "tool"],
  rcat [lit "receives", dotStar, lit "from", dotStar, lit "microservice"]]

/-- Entry `env_vars` of `has_secure_patterns`: both the env-var phrase and the
never-in-code phrase must be present. -/
def sp_env_vars (pl : String) : Bool := reSearch patEnvA pl && reSearch patEnvB pl

/-- Entry `hashing` of `has_secure_patterns`. -/
def sp_hashing (pl : String) : Bool := reSearch patHashing pl

/-- Entry `https` of `has_secure_patterns`. -/
def sp_https (pl : String) : Bool := reSearch patHttps pl

/-- Entry `validation` of `has_secure_patterns`. -/
def sp_validation (pl : String) : Bool := reSearch patValidation pl

/-- Entry `prepared_statements` of `has_secure_patterns`. -/
def sp_prepared_statements (pl : String) : Bool := reSearch patPrepared pl

/-- Entry `no_plaintext_passwords` of `has_secure_patterns`. -/
def sp_no_plaintext_passwords (pl : String) : Bool := reSearch patNoPlaintext pl

/-- Entry `no_debug_endpoints` of `has_secure_patterns`. -/
def sp_no_debug_endpoints (pl : String) : Bool := reSearch patNoDebug pl

/-- Entry `no_passwords_anywhere` of `has_secure_patterns`. -/
def sp_no_passwords_anywhere (pl : String) : Bool := reSearch patNoPasswords pl

/-- Entry `md5_for_checksums` of `has_secure_patterns`. -/
def sp_md5_for_checksums (pl : String) : Bool := reSearch patMd5Checksums pl

/-- The nested helper `has_negation_context` of `filter_false_positives`. -/
def has_negation_context (pl : String) (code : String) : Bool :=
  if code == "SEC_DEBUG_EXPOSES_SECRETS" then
    reSearch patNegExpose pl || reSearch patButNotDebug pl
  else if code == "SEC_MISSING_INPUT_VALIDATION" then
    if sp_validation pl then !reSearch patSkipValidation pl else false
  else false

/-- The `SEC_HARDCODED_SECRET` suppression rule. -/
def removeHardcodedSecret (pl : String) : Bool :=
  if sp_env_vars pl then !reSearch patHardUse pl
  else reSearch patNoneHardcoded pl

/-- The `SEC_INSECURE_JWT_STORAGE` suppression rule. -/
def removeInsecureJwtStorage (pl : String) : Bool :=
  if reSearch patNotAboutTokens pl then true
  else if sp_env_vars pl then !reSearch patStoresTokens pl
  else if reSearch patProfileJson pl then !reSearch patStoresJwt pl
  else false

/-- The `SEC_PLAINTEXT_PASSWORDS` suppression rule. -/
def removePlaintextPasswords (pl : String) : Bool :=
  sp_hashing pl || sp_no_passwords_anywhere pl

/-- The `SEC_DEBUG_EXPOSES_SECRETS` suppression rule. -/
def removeDebugExposesSecrets (pl : String) : Bool :=
  if sp_no_debug_endpoints pl then true
  else if reSearch patDebugNoReturn pl then true
  else if reSearch patDebugIdsOnly pl then true
  else false

/-- The `SEC_NO_TLS_FOR_AUTH` suppression rule: removed when no auth
implementation is mentioned, or when passwords appear only negatively. -/
def removeNoTlsForAuth (pl : String) : Bool :=
  !reSearch patAuthImpl pl || reSearch patOnlyNegative pl

/-- The `SEC_NO_AUTH_INTERNAL` suppression rule. -/
def removeNoAuthInternal (pl : String) : Bool :=
  reSearch patInternal pl && !reSearch patSkipAuth pl

/-- The per-finding `should_remove` flag of `filter_false_positives`:
each Python `if finding.code == ...` block, guarded by its code equality.
At most one block can fire since the code constants are distinct. -/
def should_remove (pl : String) (f : DevSpecFinding) : Bool :=
  (f.code == "SEC_HARDCODED_SECRET" && removeHardcodedSecret pl) ||
  (f.code == "SEC_INSECURE_JWT_STORAGE" && removeInsecureJwtStorage pl) ||
  (f.code == "SEC_PLAINTEXT_PASSWORDS" && removePlaintextPasswords pl) ||
  (f.code == "SEC_DEBUG_EXPOSES_SECRETS" && removeDebugExposesSecrets pl) ||
  (f.code == "SEC_MISSING_INPUT_VALIDATION" && has_negation_context pl f.code) ||
  (f.code == "SEC_WEAK_HASH_MD5" && sp_md5_for_checksums pl) ||
  (f.code == "SEC_NO_TLS_FOR_AUTH" && removeNoTlsForAuth pl) ||
  (f.code == "SEC_NO_AUTH_INTERNAL" && removeNoAuthInternal pl)

/-- `pipeline.filter_false_positives`: keep the findings whose suppression
rule does not fire on the lower-cased prompt. -/
def filter_false_positives (prompt : String) (findings : List DevSpecFinding) :
    List DevSpecFinding :=
  let prompt_lower := pyLower prompt
  findings.filter (fun f => !should_remove prompt_lower f)

/-! ### Spec quality analysis (pipeline.detect_missing_spec_areas,
pipeline.compute_spec_quality_score) -/

/-- `pipeline.detect_missing_spec_areas`: warnings for missing or weak
areas of the extracted spec structure, in emission order. -/
def detect_missing_spec_areas (st : SpecKitStructure) : List String :=
  (if st.features.isEmpty then
    ["No features or requirements explicitly defined. Consider specifying what the system should do."]
  else []) ++
  (if st.entities.isEmpty then
    ["No data models or entities identified. Consider defining what data structures are needed."]
  else []) ++
  (if st.flows.isEmpty then
    ["No user flows or workflows identified. Consider describing how users interact with the system."]
  else []) ++
  (if st.error_handling.isEmpty then
    ["No error handling strategy mentioned. Consider how the system handles failures and edge cases."]
  else []) ++
  (if st.testing.isEmpty then
    ["No testing strategy mentioned. Consider adding test plans, unit tests, or integration tests."]
  else []) ++
  (if st.logging.isEmpty then
    ["No logging or monitoring mentioned. Consider how you\x27ll track system behavior and debug issues."]
  else []) ++
  (if !st.authentication.isEmpty &&
      (st.flows.isEmpty ||
        !(st.flows.any (fun f => strContains f "login" || strContains f "auth"))) then
    ["Authentication mentioned but login/auth flow not clearly defined."]
  else []) ++
  (if !st.data_storage.isEmpty && st.configuration.isEmpty then
    ["Data storage mentioned but configuration details (connection strings, env vars) not specified."]
  else []) ++
  (if !st.features.isEmpty &&
      (2 * (st.features.filter (fun f => pyWordCount f < 3)).length > st.features.length) then
    -- Python compares len(vague) > len(features)/2 with float division;
    -- doubling both sides makes the comparison exact over integers.
    ["Some features are vaguely defined. Consider adding more detail about what each feature should do."]
  else [])

/-- Python `max(0, min(95, score))`: the final clamp of
`compute_spec_quality_score`. -/
def clamp95 (score : Int) : Int := max 0 (min 95 score)

/-- Pattern `test suite that covers|comprehensive test|test.*cover.*(login|token|profile)`. -/
def patTestSuiteDetail : RE := ralt [lit "test suite that covers", lit "comprehensive test",
  rcat [lit "test", dotStar, lit "cover", dotStar, ralt [lit "login", lit "token", lit "profile"]]]

/-- Pattern `log request method.*path.*status|logging includes.*method.*path|error logging with request`. -/
def patLoggingDetail : RE := ralt [
  rcat [lit "log request method", dotStar, lit "path", dotStar, lit "status"],
  rcat [lit "logging includes", dotStar, lit "method", dotStar, lit "path"],
  lit "error logging with request"]

/-- Pattern `error handling|handle.*edge case`. -/
def patErrorHandlingDetail : RE := ralt [lit "error handling",
  rcat [lit "handle", dotStar, lit "edge case"]]

/-- The fixed vocabulary `tech_keywords` of `compute_spec_quality_score`. -/
def tech_keywords : List String :=
  ["openid connect", "oauth",
   "postgresql", "mysql", "mongodb",
   "s3", "gcs",
   "kafka", "rabbitmq",
   "kubernetes", "terraform",
   "graphql", "grpc"]

/-- The `if prompt_text:` block of `compute_spec_quality_score`: technology
keyword bonus plus the three fixed-phrase bonuses. -/
def promptHeuristicBonus (prompt_text : String) : Int :=
  if prompt_text = "" then 0
  else
    let prompt_lower := pyLower prompt_text
    let tech_count : Nat :=
      (tech_keywords.filter (fun k => strContains prompt_lower k)).length
    let techBonus : Int :=
      if tech_count ≥ 4 then 18 else if tech_count ≥ 3 then 12
      else if tech_count ≥ 2 then 6 else 0
    techBonus +
      (if reSearch patTestSuiteDetail prompt_lower then 6 else 0) +
      (if reSearch patLoggingDetail prompt_lower then 4 else 0) +
      (if reSearch patErrorHandlingDetail prompt_lower then 3 else 0)

/-- `pipeline.compute_spec_quality_score`: deterministic weighted sum,
clamped to `[0, 95]`. -/
def compute_spec_quality_score (st : SpecKitStructure) (warnings : List String)
    (prompt_text : String) : Int :=
  let critical_categories : List (List String) :=
    [st.features, st.entities, st.flows, st.error_handling, st.testing]
  let important_categories : List (List String) :=
    [st.configuration, st.logging, st.authentication, st.data_storage]
  let base : Int := 44
  let criticalPoints : Int := 7 * ((critical_categories.filter (fun c => !c.isEmpty)).length : Int)
  let importantPoints : Int := 4 * ((important_categories.filter (fun c => !c.isEmpty)).length : Int)
  let warning_penalty : Int := min ((warnings.length : Int) * 3) 15
  let all_critical_populated : Bool := critical_categories.all (fun c => !c.isEmpty)
  let criticalBonus : Int := if all_critical_populated then 10 else 0
  let total_items : Nat := ((critical_categories ++ important_categories).map List.length).sum
  let itemBonus : Int :=
    if total_items ≥ 15 then 20 else if total_items ≥ 10 then 14
    else if total_items ≥ 6 then 7 else 0
  let score : Int :=
    base + criticalPoints + importantPoints - warning_penalty + criticalBonus +
      itemBonus + promptHeuristicBonus prompt_text
  clamp95 score

/-! ### Risk classifier (pipeline.analyze_prompt, severity block) -/

/-- Does a finding carry the given (upper-cased) severity? -/
def hasSeverity (sev : String) (f : DevSpecFinding) : Bool := pyUpper f.severity == sev

/-- The risk-level computation of `pipeline.analyze_prompt` (lines 376-391):
BLOCKER → High, else ERROR → Medium, else Low. -/
def computeRiskLevel (filtered_findings : List DevSpecFinding) : String :=
  let has_blockers := filtered_findings.any (hasSeverity "BLOCKER")
  let has_errors := filtered_findings.any (hasSeverity "ERROR")
  let has_warnings := filtered_findings.any (hasSeverity "WARNING")
  if has_blockers then "High"
  else if has_errors then "Medium"
  else if has_warnings then "Low"
  else "Low"

/-! ### Guidance engine (guidance_engine.py) -/

/-- The constraint strings added for one finding by the code-substring table
of `build_guidance` (each Python `in finding.code` test became a
`strContains`). -/
def constraintsFor (f : DevSpecFinding) : List String :=
  (if strContains f.code "UNAUTH" || strContains f.code "NO_AUTH" then
    ["Require proper authentication and authorization for all endpoints"]
  else []) ++
  (if strContains f.code "TLS" || strContains f.code "HTTPS" || strContains f.code "HTTP" then
    ["Use HTTPS/TLS for all network communication, especially authentication flows"]
  else []) ++
  (if strContains f.code "SECRET" || strContains f.code "HARDCODED" then
    ["Never hardcode secrets, tokens, or credentials in code or config files",
     "Use environment variables or secure secret management systems"]
  else []) ++
  (if strContains f.code "PASSWORD" && strContains f.code "PLAINTEXT" then
    ["Never store passwords in plain text; use bcrypt, Argon2, or PBKDF2 for password hashing"]
  else []) ++
  (if strContains f.code "ADMIN" || strContains f.code "BACKDOOR" then
    ["Never auto-create admin accounts or backdoors",
     "Implement secure admin account creation with strong authentication"]
  else []) ++
  (if strContains f.code "DB_WIPE" || strContains f.code "DROP" then
    ["Never automatically wipe or recreate production data",
     "Require explicit admin action for destructive operations"]
  else []) ++
  (if strContains f.code "TMP" then
    ["Store uploads in secure, persistent locations, not temporary directories"]
  else []) ++
  (if strContains f.code "STACKTRACE" || strContains f.code "DEBUG" then
    ["Never expose stack traces, debug info, or environment variables to clients",
     "Log sensitive errors securely on the server side only"]
  else []) ++
  (if strContains f.code "DOCKER" && strContains f.code "ROOT" then
    ["Run Docker containers as non-root users for security"]
  else []) ++
  (if strContains f.code "VALIDATION" || strContains f.code "SKIP" then
    ["Implement strict input validation on all external inputs"]
  else []) ++
  (if strContains f.code "MD5" || strContains f.code "WEAK_HASH" then
    ["Use strong hashing algorithms (SHA-256 or better) instead of MD5 or SHA-1"]
  else []) ++
  (if strContains f.code "GET" && strContains f.code "AUTH" then
    ["Use POST requests for authentication, not GET (to avoid credentials in URLs/logs)"]
  else []) ++
  (if strContains f.code "FINANCIAL" || strContains f.code "BALANCE" || strContains f.code "PAYMENT" then
    ["Implement strict authentication and authorization for all financial operations",
     "Validate and audit all balance adjustments and transactions"]
  else []) ++
  (if strContains f.code "PHI" || strContains f.code "PATIENT" then
    ["Encrypt all Protected Health Information (PHI) at rest and in transit",
     "Implement HIPAA-compliant access controls"]
  else [])

/-- The guidance item appended by the `ARCH_` branch of the constraint loop. -/
def clarifyStackItem : GuidanceItem :=
  ⟨"Clarify Technology Stack",
   "Choose a single, consistent technology stack. Avoid mixing incompatible frameworks."⟩

/-- Guidance items contributed by one finding through the `ARCH_` branch of
the constraint loop of `build_guidance`: only codes containing `ARCH_` and
also `CONFLICTING` or `VAGUE` contribute. -/
def archClarifyItems (f : DevSpecFinding) : List GuidanceItem :=
  if strContains f.code "ARCH_" &&
      (strContains f.code "CONFLICTING" || strContains f.code "VAGUE") then
    [clarifyStackItem]
  else []

/-- A finding rendered as the bullet `• code: message`. -/
def codeBullet (f : DevSpecFinding) : String := "• " ++ f.code ++ ": " ++ f.message

/-- The constraint set assembled by `build_guidance`: per-finding table hits
for Medium/High risk, as Python `sorted(list(set(...)))` (dedup + sort). -/
def buildConstraintSet (findings : List DevSpecFinding) (risk_level : String) :
    List String :=
  let constraints : List String :=
    if risk_level == "Medium" || risk_level == "High" then
      findings.flatMap constraintsFor
    else []
  (constraints.dedup).insertionSort (· ≤ ·)

/-- `guidance_engine.build_curated_prompt`: selects one of the literal
templates by (risk level, severity buckets) and appends it below the
original prompt. -/
def build_curated_prompt (original_prompt : String) (constraints : List String)
    (risk_level : String) (findings : List DevSpecFinding) : String :=
  let _ := constraints   -- accepted but unused by every template, as in the source
  let blockers := findings.filter (hasSeverity "BLOCKER")
  let errors := findings.filter (hasSeverity "ERROR")
  let warnings := findings.filter (hasSeverity "WARNING")
  if risk_level == "Low" && warnings.length ≤ 2 then
    if warnings.isEmpty then
      original_prompt ++ ("\n\n---\n" ++
        ("SECURITY ANALYSIS: Low Risk" ++
         "\n✅ No significant security issues detected. Follow standard secure development practices."))
    else
      let warning_notes := joinLines (warnings.map (fun f => "• " ++ f.message))
      original_prompt ++ ("\n\n---\n" ++
        ("Notes:\n" ++ warning_notes ++ "\n\n" ++ ("SECURITY ANALYSIS: Low Risk" ++ "")))
  else if risk_level == "High" && !blockers.isEmpty then
    let blocker_section := joinLines (blockers.map codeBullet)
    let additional_notes :=
      if !errors.isEmpty then
        "\n\nAdditional Security Concerns:\n" ++
          joinLines (errors.map codeBullet)
      else ""
    original_prompt ++ ("\n\n---\n" ++
      ("⚠️ CRITICAL SECURITY ISSUES ⚠️\n\nThe following issues are UNACCEPTABLE for production and must be fixed:\n\n" ++
       (blocker_section ++ additional_notes ++
        "\n\nThese are critical vulnerabilities that could lead to data breaches, system compromise,\nor unauthorized access. Do NOT proceed with implementation until these are resolved.\n\n" ++
        ("SECURITY ANALYSIS: High Risk" ++ ""))))
  else if risk_level == "Medium" && blockers.isEmpty && warnings.length ≥ 3 then
    let quality_warnings := warnings.filter (fun w => strStartsWith w.code "QUAL_")
    let security_warnings := warnings.filter (fun w => strStartsWith w.code "SEC_")
    let arch_warnings := warnings.filter (fun w => strStartsWith w.code "ARCH_")
    let concern_notes : List String :=
      (if !security_warnings.isEmpty then
        "Security Concerns:" :: security_warnings.map (fun w => "  • " ++ w.message)
      else []) ++
      (if !quality_warnings.isEmpty then
        "\nQuality Concerns:" :: quality_warnings.map (fun w => "  • " ++ w.message)
      else []) ++
      (if !arch_warnings.isEmpty then
        "\nArchitecture/Design Concerns:" :: arch_warnings.map (fun w => "  • " ++ w.message)
      else [])
    let concern_section := joinLines concern_notes
    original_prompt ++ ("\n\n---\n" ++
      ("Quality and Design Concerns:\n\nThis specification has structural and planning gaps that elevate it to Medium risk:\n\n" ++
       (concern_section ++
        "\n\nWhile no critical vulnerabilities were identified, the accumulation of missing details\nand deferred decisions increases the risk of security issues during implementation.\nAddress these concerns to ensure a robust, maintainable system.\n\n" ++
        ("SECURITY ANALYSIS: Medium Risk" ++ ""))))
  else if risk_level == "Medium" && !errors.isEmpty then
    let error_notes := joinLines (errors.map codeBullet)
    let additional_warnings :=
      if !warnings.isEmpty then
        "\n\nAdditional Warnings:\n" ++
          joinLines (warnings.map (fun w => "  • " ++ w.message))
      else ""
    original_prompt ++ ("\n\n---\n" ++
      ("Security Issues Detected:\n\n" ++
       (error_notes ++ additional_warnings ++
        "\n\nThese issues should be addressed to meet security best practices and prevent\npotential vulnerabilities in production.\n\n" ++
        ("SECURITY ANALYSIS: Medium Risk" ++ ""))))
  else if risk_level == "Medium" then
    let notes_section := joinLines (findings.map codeBullet)
    original_prompt ++ ("\n\n---\n" ++
      ("Security and Quality Issues:\n\n" ++
       (notes_section ++ "\n\n" ++ ("SECURITY ANALYSIS: Medium Risk" ++ ""))))
  else
    original_prompt ++ ("\n\n---\n" ++
      ("SECURITY ANALYSIS: " ++ risk_level ++ " Risk" ++
       "\nReview the detailed findings and address issues during implementation.\n"))

/-- The three per-severity-bucket guidance items of `build_guidance`. -/
def severityBucketItems (findings : List DevSpecFinding) : List GuidanceItem :=
  let blockers := findings.filter (hasSeverity "BLOCKER")
  let errors := findings.filter (hasSeverity "ERROR")
  let warnings := findings.filter (hasSeverity "WARNING")
  (if !blockers.isEmpty then
    [⟨"Critical Security Issues Detected",
      "Found " ++ toString blockers.length ++
        " BLOCKER-level security issues that must be addressed. These represent serious vulnerabilities that could lead to data breaches or system compromise."⟩]
  else []) ++
  (if !errors.isEmpty then
    [⟨"Security Errors Found",
      "Found " ++ toString errors.length ++
        " ERROR-level security issues. These should be fixed to meet security best practices."⟩]
  else []) ++
  (if !warnings.isEmpty then
    [⟨"Security Warnings",
      "Found " ++ toString warnings.length ++
        " WARNING-level issues. Consider addressing these to improve security posture."⟩]
  else [])

/-- The guidance items appended by the `ARCH_` branch inside the constraint
loop of `build_guidance` (the loop only runs for Medium/High risk). -/
def archItemsOf (findings : List DevSpecFinding) (risk_level : String) :
    List GuidanceItem :=
  if risk_level == "Medium" || risk_level == "High" then
    findings.flatMap archClarifyItems
  else []

/-- The leading "Security Analysis Summary" item of `build_guidance`. -/
def summaryItem (findings : List DevSpecFinding) (risk_level : String) :
    GuidanceItem :=
  ⟨"Security Analysis Summary",
    "Analyzed prompt and found " ++ toString findings.length ++ " total issues: " ++
      toString (findings.filter (hasSeverity "BLOCKER")).length ++ " blockers, " ++
      toString (findings.filter (hasSeverity "ERROR")).length ++ " errors, " ++
      toString (findings.filter (hasSeverity "WARNING")).length ++
      " warnings. Risk Level: " ++ risk_level ++ "."⟩

/-- The "No Security Issues Detected" item of `build_guidance`. -/
def noIssuesItem : GuidanceItem :=
  ⟨"No Security Issues Detected",
    "The prompt passed all security checks. Proceed with implementation following best practices."⟩

/-- `guidance_engine.build_guidance`: guidance items plus the final curated
prompt.  The constraint set is Python's `sorted(list(set(...)))`, embedded as
dedup followed by an insertion sort under the lexicographic string order. -/
def build_guidance (prompt : String) (findings : List DevSpecFinding)
    (risk_level : String) : List GuidanceItem × String :=
  let constraints_list : List String := buildConstraintSet findings risk_level
  let final_curated_prompt :=
    build_curated_prompt prompt constraints_list risk_level findings
  let items := severityBucketItems findings ++ archItemsOf findings risk_level
  let guidance_items : List GuidanceItem :=
    if !findings.isEmpty then
      summaryItem findings risk_level :: items
    else
      items ++ [noIssuesItem]
  (guidance_items, final_curated_prompt)

/-! ### Scanner output parser (devspec_runner.parse_devspec_output) -/

/-- One greedy character-class capture group `([A-Z]+)`-style: the maximal
run of class characters, failing when it is empty. -/
def grabField (p : Char → Bool) (l : List Char) : Option (List Char × List Char) :=
  let run := l.takeWhile p
  if run.isEmpty then none else some (run, l.drop run.length)

/-- Tag-pattern stage 3: `([A-Z_0-9]+)\]` against the remaining input. -/
def matchTag3 (a bf r5 : List Char) : Option (String × String × String) :=
  match grabField isCodeChar r5 with
  | some (cf, ']' :: _) => some (⟨a⟩, ⟨bf⟩, ⟨cf⟩)
  | _ => none

/-- Tag-pattern stage 2: `([A-Z]+)\]\[` then stage 3. -/
def matchTag2 (a r3 : List Char) : Option (String × String × String) :=
  match grabField isUpperAZ r3 with
  | some (bf, ']' :: '[' :: r5) => matchTag3 a bf r5
  | _ => none

/-- Tag-pattern stage 1: `([A-Z]+)\]\[` then stage 2. -/
def matchTag1 (r1 : List Char) : Option (String × String × String) :=
  match grabField isUpperAZ r1 with
  | some (a, ']' :: '[' :: r3) => matchTag2 a r3
  | _ => none

/-- The anchored tag pattern `\[([A-Z]+)\]\[([A-Z]+)\]\[([A-Z_0-9]+)\]` of
`parse_devspec_output`, with its three capture groups.  Each greedy class
`[A-Z]+` / `[A-Z_0-9]+` cannot contain `]`, so the maximal run is the unique
match and a staged scanner is an exact translation; `re.match` only anchors
the start, so trailing text is allowed. -/
def matchTag (line : String) : Option (String × String × String) :=
  match line.data with
  | '[' :: r1 => matchTag1 r1
  | _ => none

/-- The `while i < len(lines)` loop of `parse_devspec_output`.  On a tag line
the next line is taken as the message, and the line after that is always
consumed as the suggestion candidate (whether or not it starts with
`Suggestion:`), because the loop increments `i` once more at the bottom. -/
def parseLoop : List (List Char) → List DevSpecFinding
  | [] => []
  | l :: rest =>
    match matchTag ⟨pyStripL l⟩ with
    | none => parseLoop rest
    | some (category, severity, code) =>
      match rest with
      | [] => [⟨category, severity, code, "", ""⟩]
      | [m] => [⟨category, severity, code, ⟨pyStripL m⟩, ""⟩]
      | m :: s :: rest2 =>
        let strippedS := pyStripL s
        let suggestion : String :=
          if startsWithL "Suggestion:".data strippedS then
            ⟨pyStripL (replaceAll "Suggestion:".data [] strippedS)⟩
          else ""
        ⟨category, severity, code, ⟨pyStripL m⟩, suggestion⟩ :: parseLoop rest2

/-- `devspec_runner.parse_devspec_output`: strip, split into lines, scan. -/
def parse_devspec_output (output : String) : List DevSpecFinding :=
  parseLoop (splitBy (fun c => c = '\n') (pyStripL output.data))

/-! ### The pipeline (pipeline.analyze_prompt) -/

/-- The fields of `models.AnalysisResponse` that the pure pipeline core
determines (the spec-kit stage only fills the separate quality fields and the
Claude call is an optional pass-through; neither affects these). -/
structure PipelineResult where
  original_prompt : String
  normalized_prompt : String
  devspec_findings : List DevSpecFinding
  guidance : List GuidanceItem
  final_curated_prompt : String
  has_blockers : Bool
  has_errors : Bool
  risk_level : String
deriving DecidableEq, Repr

/-- The pure core of `pipeline.analyze_prompt`.  The external scanner
(`run_dev_spec_kit`, a subprocess wrapper) is out of process; its parsed
findings enter here as the `scanner_findings` argument, exactly where
`analyze_prompt` consumes them. -/
def analyze_prompt (prompt : String) (scanner_findings : List DevSpecFinding) :
    PipelineResult :=
  let normalized_prompt := pyStrip prompt
  let filtered_findings := filter_false_positives normalized_prompt scanner_findings
  let has_blockers := filtered_findings.any (hasSeverity "BLOCKER")
  let has_errors := filtered_findings.any (hasSeverity "ERROR")
  let risk_level := computeRiskLevel filtered_findings
  let result := build_guidance normalized_prompt filtered_findings risk_level
  { original_prompt := prompt
    normalized_prompt := normalized_prompt
    devspec_findings := filtered_findings
    guidance := result.1
    final_curated_prompt := result.2
    has_blockers := has_blockers
    has_errors := has_errors
    risk_level := risk_level }

/-- The three-blocker scenario prompt of spec §8. -/
def scenarioPrompt : String :=
  "Store the user password in plain text. Use HTTP instead of HTTPS. Hardcode secret key abc123."

/-- Modelled from the spec: the external rule scanner
(`dev-spec-kit/scripts/security-check*.sh`, not under `src/`) reports, for
`scenarioPrompt`, the findings PLAINTEXT_PASSWORDS, HTTP_FOR_AUTH and
HARDCODED_SECRET, all at severity BLOCKER (spec §8 scenario).  The spec does
not fix the message texts; representative ones are used. -/
def scenarioScannerFindings : List DevSpecFinding :=
  [⟨"SECURITY", "BLOCKER", "PLAINTEXT_PASSWORDS", "Storing passwords in plain text", ""⟩,
   ⟨"SECURITY", "BLOCKER", "HTTP_FOR_AUTH", "Using HTTP for authentication", ""⟩,
   ⟨"SECURITY", "BLOCKER", "HARDCODED_SECRET", "Hardcoded secret key", ""⟩]

/-! ### Generic lemmas about the string primitives -/

theorem startsWithL_self_append (a b : List Char) : startsWithL a (a ++ b) = true := by
  induction a with
  | nil => rfl
  | cons c t ih => simpa [startsWithL] using ih

theorem startsWithL_refl (a : List Char) : startsWithL a a = true := by
  have h := startsWithL_self_append a []
  simpa using h

theorem containsSub_cons (c : Char) (t n : List Char) :
    containsSub (c :: t) n = (startsWithL n (c :: t) || containsSub t n) := rfl

theorem containsSub_nil (n : List Char) : containsSub [] n = startsWithL n [] := by
  show (startsWithL n [] || false) = startsWithL n []
  simp

theorem containsSub_of_startsWith (hay n : List Char) (h : startsWithL n hay = true) :
    containsSub hay n = true := by
  cases hay with
  | nil => rw [containsSub_nil, h]
  | cons c t => rw [containsSub_cons, h]; simp

theorem containsSub_self_append (a b : List Char) : containsSub (a ++ b) a = true :=
  containsSub_of_startsWith _ _ (startsWithL_self_append a b)

theorem containsSub_cons_of (c : Char) (t n : List Char) (h : containsSub t n = true) :
    containsSub (c :: t) n = true := by
  rw [containsSub_cons, h]
  simp

theorem containsSub_append_left (a b n : List Char) (h : containsSub b n = true) :
    containsSub (a ++ b) n = true := by
  induction a with
  | nil => simpa using h
  | cons c t ih => exact containsSub_cons_of c (t ++ b) n ih

theorem startsWithL_append_of (n a b : List Char) (h : startsWithL n a = true) :
    startsWithL n (a ++ b) = true := by
  induction n generalizing a with
  | nil => rfl
  | cons c t ih =>
    cases a with
    | nil => simp [startsWithL] at h
    | cons x xs =>
      simp only [startsWithL, Bool.and_eq_true, decide_eq_true_eq] at h
      simp only [List.cons_append, startsWithL, Bool.and_eq_true, decide_eq_true_eq]
      exact ⟨h.1, ih xs h.2⟩

theorem containsSub_append_right (a b n : List Char) (h : containsSub a n = true) :
    containsSub (a ++ b) n = true := by
  induction a with
  | nil =>
    rw [containsSub_nil] at h
    cases n with
    | nil => exact containsSub_of_startsWith _ _ rfl
    | cons c t => simp [startsWithL] at h
  | cons c t ih =>
    rw [containsSub_cons] at h
    rcases Bool.or_eq_true_iff.mp h with h1 | h2
    · exact containsSub_of_startsWith _ _ (startsWithL_append_of n (c :: t) b h1)
    · exact containsSub_cons_of c (t ++ b) n (ih h2)

theorem strContains_append_right (a b n : String) (h : strContains b n = true) :
    strContains (a ++ b) n = true := by
  unfold strContains at *
  rw [String.data_append]
  exact containsSub_append_left _ _ _ h

theorem strContains_append_left (a b n : String) (h : strContains a n = true) :
    strContains (a ++ b) n = true := by
  unfold strContains at *
  rw [String.data_append]
  exact containsSub_append_right _ _ _ h

theorem strContains_self_append (a b : String) : strContains (a ++ b) a = true := by
  unfold strContains
  rw [String.data_append]
  exact containsSub_self_append _ _

theorem strContains_refl (a : String) : strContains a a = true := by
  unfold strContains
  have h := containsSub_self_append a.data []
  simpa using h

theorem strContains_joinLines (xs : List String) (x : String) (h : x ∈ xs) :
    strContains (joinLines xs) x = true := by
  induction xs with
  | nil => cases h
  | cons y ys ih =>
    rcases List.mem_cons.mp h with rfl | hmem
    · cases ys with
      | nil => exact strContains_refl x
      | cons z zs =>
        show strContains (x ++ "\n" ++ joinLines (z :: zs)) x = true
        exact strContains_append_left _ _ _ (strContains_self_append x "\n")
    · cases ys with
      | nil => cases hmem
      | cons z zs =>
        show strContains (y ++ "\n" ++ joinLines (z :: zs)) x = true
        exact strContains_append_right _ _ _ (ih hmem)

/-! ### Claim C1: risk level characterization -/

/-- Lift `List.any` over a severity test to an existential. -/
theorem any_severity_iff (fs : List DevSpecFinding) (sev : String) :
    fs.any (hasSeverity sev) = true ↔ ∃ f ∈ fs, pyUpper f.severity = sev := by
  simp [List.any_eq_true, hasSeverity]

/-- The two `"Low"` outcomes of the severity cascade coincide. -/
theorem computeRiskLevel_eq (fs : List DevSpecFinding) :
    computeRiskLevel fs =
      if fs.any (hasSeverity "BLOCKER") then "High"
      else if fs.any (hasSeverity "ERROR") then "Medium"
      else "Low" := by
  show (if fs.any (hasSeverity "BLOCKER") = true then "High"
      else if fs.any (hasSeverity "ERROR") = true then "Medium"
      else if fs.any (hasSeverity "WARNING") = true then "Low" else "Low") = _
  cases fs.any (hasSeverity "WARNING") <;> simp

/-- C1: for every filtered finding list, the risk level computed by
`analyze_prompt` is `"High"` iff some finding has (upper-cased) severity
BLOCKER, `"Medium"` iff no BLOCKER and some ERROR, and `"Low"` otherwise; in
particular a list of only WARNING findings, of any count, yields `"Low"`. -/
theorem risk_level_characterization (fs : List DevSpecFinding) :
    (computeRiskLevel fs = "High" ↔ ∃ f ∈ fs, pyUpper f.severity = "BLOCKER") ∧
    (computeRiskLevel fs = "Medium" ↔
      (¬ (∃ f ∈ fs, pyUpper f.severity = "BLOCKER")) ∧
        ∃ f ∈ fs, pyUpper f.severity = "ERROR") ∧
    (computeRiskLevel fs = "Low" ↔
      (¬ (∃ f ∈ fs, pyUpper f.severity = "BLOCKER")) ∧
        ¬ (∃ f ∈ fs, pyUpper f.severity = "ERROR")) ∧
    ((∀ f ∈ fs, pyUpper f.severity = "WARNING") → computeRiskLevel fs = "Low") := by
  rw [computeRiskLevel_eq]
  cases hb : fs.any (hasSeverity "BLOCKER") with
  | true =>
    have hB : ∃ f ∈ fs, pyUpper f.severity = "BLOCKER" := (any_severity_iff fs _).mp hb
    rw [if_pos rfl]
    refine ⟨iff_of_true rfl hB, iff_of_false (by decide) (fun hx => hx.1 hB),
      iff_of_false (by decide) (fun hx => hx.1 hB), ?_⟩
    intro hall
    obtain ⟨g, hg, hgs⟩ := hB
    have hW := hall g hg
    rw [hgs] at hW
    exact absurd hW (by decide)
  | false =>
    have hnB : ¬ ∃ f ∈ fs, pyUpper f.severity = "BLOCKER" := fun hx =>
      Bool.noConfusion (hb ▸ (any_severity_iff fs _).mpr hx)
    cases he : fs.any (hasSeverity "ERROR") with
    | true =>
      have hE : ∃ f ∈ fs, pyUpper f.severity = "ERROR" := (any_severity_iff fs _).mp he
      rw [if_neg (by decide), if_pos rfl]
      refine ⟨iff_of_false (by decide) (fun hx => hnB hx), iff_of_true rfl ⟨hnB, hE⟩,
        iff_of_false (by decide) (fun hx => hx.2 hE), ?_⟩
      intro hall
      obtain ⟨g, hg, hgs⟩ := hE
      have hW := hall g hg
      rw [hgs] at hW
      exact absurd hW (by decide)
    | false =>
      have hnE : ¬ ∃ f ∈ fs, pyUpper f.severity = "ERROR" := fun hx =>
        Bool.noConfusion (he ▸ (any_severity_iff fs _).mpr hx)
      rw [if_neg (by decide), if_neg (by decide)]
      exact ⟨iff_of_false (by decide) (fun hx => hnB hx),
        iff_of_false (by decide) (fun hx => hnE hx.2),
        iff_of_true rfl ⟨hnB, hnE⟩, fun _ => rfl⟩

/-- C1 witness: a concrete three-WARNING list is classified `"Low"`, and the
theorem's equivalences hold there. -/
theorem risk_level_characterization_witness :
    computeRiskLevel
      [⟨"SECURITY", "WARNING", "SEC_A", "", ""⟩,
       ⟨"SECURITY", "WARNING", "SEC_B", "", ""⟩,
       ⟨"SECURITY", "WARNING", "SEC_C", "", ""⟩] = "Low" :=
  (risk_level_characterization _).2.2.2 (by decide)

/-! ### Claim C6: quality score bounds -/

theorem clamp95_bounds (s : Int) : 0 ≤ clamp95 s ∧ clamp95 s ≤ 95 := by
  unfold clamp95
  omega

/-- C6: for every structure, warning list and prompt text, the quality score
is an integer in `[0, 95]`; in particular it never reaches 100. -/
theorem spec_quality_score_bounds (st : SpecKitStructure) (warnings : List String)
    (prompt_text : String) :
    0 ≤ compute_spec_quality_score st warnings prompt_text ∧
      compute_spec_quality_score st warnings prompt_text ≤ 95 :=
  clamp95_bounds _

/-! ### Claim C8: suppressor idempotence and subsequence -/

/-- C8: re-running the suppressor on its own output (same prompt) changes
nothing, and the output is an order-preserving subsequence of the input. -/
theorem filter_false_positives_idempotent (prompt : String)
    (findings : List DevSpecFinding) :
    filter_false_positives prompt (filter_false_positives prompt findings) =
        filter_false_positives prompt findings ∧
      (filter_false_positives prompt findings).Sublist findings := by
  constructor
  · unfold filter_false_positives
    rw [List.filter_filter]
    simp
  · exact List.filter_sublist _

/-! ### Claim C2: which findings the suppressor can drop -/

/-- The eight finding codes with suppression rules in
`filter_false_positives`. -/
def suppressibleCodes : List String :=
  ["SEC_HARDCODED_SECRET", "SEC_INSECURE_JWT_STORAGE", "SEC_PLAINTEXT_PASSWORDS",
   "SEC_DEBUG_EXPOSES_SECRETS", "SEC_MISSING_INPUT_VALIDATION", "SEC_WEAK_HASH_MD5",
   "SEC_NO_TLS_FOR_AUTH", "SEC_NO_AUTH_INTERNAL"]

/-- On the empty prompt every suppression rule is inert except the
`SEC_NO_TLS_FOR_AUTH` rule, which fires because no auth implementation is
mentioned. -/
theorem should_remove_empty (f : DevSpecFinding) :
    should_remove "" f = (f.code == "SEC_NO_TLS_FOR_AUTH") := by
  have h1 : removeHardcodedSecret "" = false := by decide
  have h2 : removeInsecureJwtStorage "" = false := by decide
  have h3 : removePlaintextPasswords "" = false := by decide
  have h4 : removeDebugExposesSecrets "" = false := by decide
  have h5 : sp_md5_for_checksums "" = false := by decide
  have h6 : removeNoTlsForAuth "" = true := by decide
  have h7 : removeNoAuthInternal "" = false := by decide
  unfold should_remove
  rw [h1, h2, h3, h4, h5, h6, h7]
  by_cases hc : f.code = "SEC_MISSING_INPUT_VALIDATION"
  · rw [hc]
    decide
  · rw [beq_eq_false_iff_ne.mpr hc]
    simp

/-- A finding whose code has no suppression rule is never removed, on any
prompt. -/
theorem should_remove_unknown_code (pl : String) (f : DevSpecFinding)
    (h : f.code ∉ suppressibleCodes) : should_remove pl f = false := by
  simp only [suppressibleCodes, List.mem_cons, List.not_mem_nil, or_false, not_or] at h
  obtain ⟨n1, n2, n3, n4, n5, n6, n7, n8⟩ := h
  unfold should_remove
  rw [beq_eq_false_iff_ne.mpr n1, beq_eq_false_iff_ne.mpr n2, beq_eq_false_iff_ne.mpr n3,
    beq_eq_false_iff_ne.mpr n4, beq_eq_false_iff_ne.mpr n5, beq_eq_false_iff_ne.mpr n6,
    beq_eq_false_iff_ne.mpr n7, beq_eq_false_iff_ne.mpr n8]
  simp

/-- C2 (amended): on a prompt with no secure-pattern evidence (the empty
prompt) the suppressor passes every finding through unchanged *except*
`SEC_NO_TLS_FOR_AUTH` findings, which it drops because no auth implementation
is mentioned; and findings with unknown codes always pass through, on every
prompt. -/
theorem suppressor_empty_prompt_behavior :
    (∀ fs : List DevSpecFinding,
      filter_false_positives "" fs =
        fs.filter (fun f => !(f.code == "SEC_NO_TLS_FOR_AUTH"))) ∧
    (∀ (p : String) (fs : List DevSpecFinding),
      (∀ f ∈ fs, f.code ∉ suppressibleCodes) → filter_false_positives p fs = fs) := by
  constructor
  · intro fs
    unfold filter_false_positives
    have hlow : pyLower "" = "" := rfl
    rw [hlow]
    exact List.filter_congr (fun f _ => by rw [should_remove_empty])
  · intro p fs h
    unfold filter_false_positives
    exact List.filter_eq_self.mpr
      (fun f hf => by rw [should_remove_unknown_code (pyLower p) f (h f hf)]; rfl)

/-- C2 witness: concrete applications of both halves of the theorem. -/
theorem suppressor_empty_prompt_behavior_witness :
    (filter_false_positives ""
        [⟨"SECURITY", "ERROR", "SEC_NO_TLS_FOR_AUTH", "m", ""⟩] =
      [(⟨"SECURITY", "ERROR", "SEC_NO_TLS_FOR_AUTH", "m", ""⟩ : DevSpecFinding)].filter
        (fun f => !(f.code == "SEC_NO_TLS_FOR_AUTH"))) ∧
    (filter_false_positives "some prompt"
        [⟨"SECURITY", "ERROR", "TOTALLY_UNKNOWN_CODE", "m", ""⟩] =
      [⟨"SECURITY", "ERROR", "TOTALLY_UNKNOWN_CODE", "m", ""⟩]) :=
  ⟨suppressor_empty_prompt_behavior.1 _,
    suppressor_empty_prompt_behavior.2 "some prompt" _ (by decide)⟩

/-- C2 counterexample: on the empty prompt — which contains no secure-pattern
evidence — a `SEC_NO_TLS_FOR_AUTH` finding does *not* pass through: the
suppressor drops it. -/
theorem suppressor_drops_no_tls_on_empty_prompt :
    filter_false_positives ""
      [⟨"SECURITY", "ERROR", "SEC_NO_TLS_FOR_AUTH", "Auth endpoint served over plain HTTP", ""⟩]
      = [] := by decide

/-! ### Claim C4: the curated prompt and the original prompt -/

/-- Every template branch of `build_curated_prompt` starts with the prompt it
was given, followed by the `---` delimiter. -/
theorem build_curated_prompt_starts_with_prompt (p : String) (c : List String)
    (r : String) (fs : List DevSpecFinding) :
    ∃ rest, build_curated_prompt p c r fs = p ++ ("\n\n---\n" ++ rest) := by
  simp only [build_curated_prompt]
  repeat' split
  all_goals exact ⟨_, rfl⟩

/-- C4 (amended): the final curated prompt of the pipeline starts with the
*normalized* prompt (the caller's prompt with surrounding whitespace
stripped) above a `---`-delimited section; when the caller's prompt carries
no surrounding whitespace this is the original prompt verbatim. -/
theorem curated_prompt_preserves_normalized_prompt (prompt : String)
    (scanner : List DevSpecFinding) :
    (∃ rest, (analyze_prompt prompt scanner).final_curated_prompt =
        pyStrip prompt ++ ("\n\n---\n" ++ rest)) ∧
    (pyStrip prompt = prompt →
      strStartsWith (analyze_prompt prompt scanner).final_curated_prompt prompt = true) := by
  obtain ⟨rest, hrest⟩ := build_curated_prompt_starts_with_prompt (pyStrip prompt)
    (buildConstraintSet (filter_false_positives (pyStrip prompt) scanner)
      (computeRiskLevel (filter_false_positives (pyStrip prompt) scanner)))
    (computeRiskLevel (filter_false_positives (pyStrip prompt) scanner))
    (filter_false_positives (pyStrip prompt) scanner)
  have hcur : (analyze_prompt prompt scanner).final_curated_prompt =
      pyStrip prompt ++ ("\n\n---\n" ++ rest) := hrest
  refine ⟨⟨rest, hcur⟩, fun hp => ?_⟩
  unfold strStartsWith
  rw [hcur, hp, String.data_append]
  exact startsWithL_self_append _ _

/-- C4 witness: for an unpadded prompt the curated prompt starts with the
original prompt verbatim. -/
theorem curated_prompt_preserves_normalized_prompt_witness :
    strStartsWith (analyze_prompt "hi" []).final_curated_prompt "hi" = true :=
  (curated_prompt_preserves_normalized_prompt "hi" []).2 (by decide)

/-- C4 counterexample: for the whitespace-padded prompt `" hi "` the curated
prompt does not contain the caller's original prompt — not as a prefix and
not even as a substring — because the pipeline strips it first. -/
theorem curated_prompt_drops_padding :
    strStartsWith (analyze_prompt " hi " []).final_curated_prompt " hi " = false ∧
    strContains (analyze_prompt " hi " []).final_curated_prompt " hi " = false := by
  decide

/-! ### Claim C10: every template names the risk level -/

set_option maxHeartbeats 1000000 in
set_option maxRecDepth 4000 in
/-- C10: for each of the three risk levels, every template branch of
`build_curated_prompt` — including the default fallback — emits the marker
`SECURITY ANALYSIS: <risk> Risk`. -/
theorem curated_prompt_names_risk_level (p : String) (c : List String)
    (fs : List DevSpecFinding) (r : String)
    (h : r = "Low" ∨ r = "Medium" ∨ r = "High") :
    strContains (build_curated_prompt p c r fs)
      ("SECURITY ANALYSIS: " ++ r ++ " Risk") = true := by
  rcases h with rfl | rfl | rfl
  · simp only [build_curated_prompt,
      show (("Low" : String) == "Low") = true from rfl,
      show (("Low" : String) == "High") = false from rfl,
      show (("Low" : String) == "Medium") = false from rfl,
      Bool.true_and, Bool.false_and, Bool.false_eq_true, if_false]
    split_ifs
    all_goals
      repeat
        first
        | exact strContains_refl _
        | exact strContains_self_append _ _
        | apply strContains_append_right
  · simp only [build_curated_prompt,
      show (("Medium" : String) == "Low") = false from rfl,
      show (("Medium" : String) == "High") = false from rfl,
      show (("Medium" : String) == "Medium") = true from rfl,
      Bool.true_and, Bool.false_and, Bool.false_eq_true, if_false]
    split_ifs
    all_goals
      repeat
        first
        | exact strContains_refl _
        | exact strContains_self_append _ _
        | apply strContains_append_right
  · simp only [build_curated_prompt,
      show (("High" : String) == "Low") = false from rfl,
      show (("High" : String) == "High") = true from rfl,
      show (("High" : String) == "Medium") = false from rfl,
      Bool.true_and, Bool.false_and, Bool.false_eq_true, if_false]
    split_ifs
    all_goals
      repeat
        first
        | exact strContains_refl _
        | exact strContains_self_append _ _
        | apply strContains_append_right

/-- C10 witness: the marker appears for a concrete High-risk invocation. -/
theorem curated_prompt_names_risk_level_witness :
    strContains
      (build_curated_prompt "p" [] "High"
        [⟨"SECURITY", "BLOCKER", "SEC_X", "m", ""⟩])
      ("SECURITY ANALYSIS: " ++ "High" ++ " Risk") = true :=
  curated_prompt_names_risk_level "p" [] _ "High" (Or.inr (Or.inr rfl))

/-! ### Claim C9: architecture findings, guidance and constraints -/

/-- The disjunction of the fourteen code-substring conditions of the
constraint table in `build_guidance`. -/
def matchesConstraintTable (code : String) : Bool :=
  (strContains code "UNAUTH" || strContains code "NO_AUTH") ||
  (strContains code "TLS" || strContains code "HTTPS" || strContains code "HTTP") ||
  (strContains code "SECRET" || strContains code "HARDCODED") ||
  (strContains code "PASSWORD" && strContains code "PLAINTEXT") ||
  (strContains code "ADMIN" || strContains code "BACKDOOR") ||
  (strContains code "DB_WIPE" || strContains code "DROP") ||
  strContains code "TMP" ||
  (strContains code "STACKTRACE" || strContains code "DEBUG") ||
  (strContains code "DOCKER" && strContains code "ROOT") ||
  (strContains code "VALIDATION" || strContains code "SKIP") ||
  (strContains code "MD5" || strContains code "WEAK_HASH") ||
  (strContains code "GET" && strContains code "AUTH") ||
  (strContains code "FINANCIAL" || strContains code "BALANCE" || strContains code "PAYMENT") ||
  (strContains code "PHI" || strContains code "PATIENT")

/-- A finding whose code matches none of the table's substring conditions
contributes no constraint — in particular the `ARCH_` prefix by itself never
adds one. -/
theorem constraintsFor_eq_nil_of_no_match (f : DevSpecFinding)
    (h : matchesConstraintTable f.code = false) : constraintsFor f = [] := by
  simp only [matchesConstraintTable, Bool.or_eq_false_iff, Bool.and_eq_false_iff] at h
  obtain ⟨⟨⟨⟨⟨⟨⟨⟨⟨⟨⟨⟨⟨h1, h2⟩, h3⟩, h4⟩, h5⟩, h6⟩, h7⟩, h8⟩, h9⟩, h10⟩, h11⟩,
    h12⟩, h13⟩, h14⟩ := h
  unfold constraintsFor
  rw [if_neg (by simp [h1.1, h1.2]), if_neg (by simp [h2.1, h2.2]),
    if_neg (by simp [h3.1, h3.2]), if_neg (by rcases h4 with h | h <;> simp [h]),
    if_neg (by simp [h5.1, h5.2]), if_neg (by simp [h6.1, h6.2]),
    if_neg (by simp [h7]), if_neg (by simp [h8.1, h8.2]),
    if_neg (by rcases h9 with h | h <;> simp [h]),
    if_neg (by simp [h10.1, h10.2]), if_neg (by simp [h11.1, h11.2]),
    if_neg (by rcases h12 with h | h <;> simp [h]),
    if_neg (by simp [h13.1, h13.2]), if_neg (by simp [h14.1, h14.2])]
  rfl

/-- C9 (amended): when the risk level is Medium or High, every finding whose
code contains `ARCH_` *and additionally* `CONFLICTING` or `VAGUE` contributes
a "Clarify Technology Stack" guidance item; and the architecture branch never
adds a constraint — a finding contributes constraints only through the
generic substring table, so a code matching none of those substrings
contributes none. -/
theorem arch_findings_guidance (p : String) (findings : List DevSpecFinding)
    (risk : String) (hrisk : risk = "Medium" ∨ risk = "High") :
    (∀ f ∈ findings,
      strContains f.code "ARCH_" = true →
      (strContains f.code "CONFLICTING" = true ∨ strContains f.code "VAGUE" = true) →
      clarifyStackItem ∈ (build_guidance p findings risk).1) ∧
    (∀ f : DevSpecFinding, matchesConstraintTable f.code = false →
      constraintsFor f = []) := by
  constructor
  · intro f hf harch hcv
    have hne : findings.isEmpty = false := by
      cases findings with
      | nil => cases hf
      | cons a l => rfl
    have hfst : (build_guidance p findings risk).1 =
        if !findings.isEmpty then
          summaryItem findings risk ::
            (severityBucketItems findings ++ archItemsOf findings risk)
        else severityBucketItems findings ++ archItemsOf findings risk ++ [noIssuesItem] :=
      rfl
    rw [hfst, hne]
    simp only [Bool.not_false, if_true]
    apply List.mem_cons_of_mem
    apply List.mem_append_right
    have harchitems : archItemsOf findings risk = findings.flatMap archClarifyItems := by
      unfold archItemsOf
      rcases hrisk with rfl | rfl
      · exact if_pos rfl
      · exact if_pos rfl
    rw [harchitems]
    refine List.mem_flatMap.mpr ⟨f, hf, ?_⟩
    unfold archClarifyItems
    rcases hcv with hc | hv
    · rw [harch, hc]
      simp
    · rw [harch, hv]
      simp
  · exact fun f h => constraintsFor_eq_nil_of_no_match f h

/-- C9 witness: a Medium-risk `ARCH_CONFLICTING_STACK` finding yields the
Clarify item, and a code matching no table substring yields no constraint. -/
theorem arch_findings_guidance_witness :
    (clarifyStackItem ∈
      (build_guidance "p" [⟨"ARCH", "WARNING", "ARCH_CONFLICTING_STACK", "m", ""⟩]
        "Medium").1) ∧
    constraintsFor ⟨"ARCH", "WARNING", "ARCH_DB_CHOICE", "m", ""⟩ = [] :=
  ⟨(arch_findings_guidance "p"
        [⟨"ARCH", "WARNING", "ARCH_CONFLICTING_STACK", "m", ""⟩] "Medium"
        (Or.inl rfl)).1
      ⟨"ARCH", "WARNING", "ARCH_CONFLICTING_STACK", "m", ""⟩
      (by decide) (by decide) (Or.inl (by decide)),
    (arch_findings_guidance "p" [] "Medium" (Or.inl rfl)).2
      ⟨"ARCH", "WARNING", "ARCH_DB_CHOICE", "m", ""⟩ (by decide)⟩

/-- C9 counterexample: at Medium risk an `ARCH_`-prefixed finding whose code
lacks `CONFLICTING`/`VAGUE` contributes no "Clarify Technology Stack" item,
and an `ARCH_`-prefixed code containing a table substring (`SKIP`) does
contribute a constraint — both contradicting the claim as stated. -/
theorem arch_findings_guidance_counterexample :
    (∀ g ∈ (build_guidance "p"
        [⟨"ARCH", "WARNING", "ARCH_DB_CHOICE", "m", ""⟩] "Medium").1,
      g.title ≠ "Clarify Technology Stack") ∧
    buildConstraintSet [⟨"ARCH", "WARNING", "ARCH_SKIP_VALIDATION", "m", ""⟩]
      "Medium" ≠ [] := by decide

/-! ### Claim C5: the High-risk CRITICAL SECURITY ISSUES template -/

set_option maxHeartbeats 1000000 in
set_option maxRecDepth 4000 in
/-- C5: for every finding list with at least one BLOCKER, the High-risk
curated prompt uses the CRITICAL SECURITY ISSUES template — it contains the
phrase, one `• code: message` bullet per blocker, and an
"Additional Security Concerns" block exactly when ERROR findings are present
(the structural equation shows the block is appended iff the error bucket is
non-empty); and in the spec's three-blocker scenario the pipeline keeps all
three findings, classifies High, and emits the phrase. -/
theorem high_risk_critical_template (p : String) (c : List String)
    (fs : List DevSpecFinding)
    (hb : fs.filter (hasSeverity "BLOCKER") ≠ []) :
    strContains (build_curated_prompt p c "High" fs)
        "CRITICAL SECURITY ISSUES" = true ∧
    (∀ b ∈ fs.filter (hasSeverity "BLOCKER"),
      strContains (build_curated_prompt p c "High" fs) (codeBullet b) = true) ∧
    build_curated_prompt p c "High" fs =
      p ++ ("\n\n---\n" ++
        ("⚠️ CRITICAL SECURITY ISSUES ⚠️\n\nThe following issues are UNACCEPTABLE for production and must be fixed:\n\n" ++
         (joinLines ((fs.filter (hasSeverity "BLOCKER")).map codeBullet) ++
          (if !(fs.filter (hasSeverity "ERROR")).isEmpty then
            "\n\nAdditional Security Concerns:\n" ++
              joinLines ((fs.filter (hasSeverity "ERROR")).map codeBullet)
          else "") ++
          "\n\nThese are critical vulnerabilities that could lead to data breaches, system compromise,\nor unauthorized access. Do NOT proceed with implementation until these are resolved.\n\n" ++
          ("SECURITY ANALYSIS: High Risk" ++ "")))) ∧
    strContains (analyze_prompt scenarioPrompt scenarioScannerFindings).final_curated_prompt
        "CRITICAL SECURITY ISSUES" = true ∧
    (analyze_prompt scenarioPrompt scenarioScannerFindings).risk_level = "High" ∧
    (analyze_prompt scenarioPrompt scenarioScannerFindings).devspec_findings =
      scenarioScannerFindings := by
  have hbe : (fs.filter (hasSeverity "BLOCKER")).isEmpty = false :=
    Bool.eq_false_iff.mpr (fun hh => hb (List.isEmpty_iff.mp hh))
  have heq : build_curated_prompt p c "High" fs =
      p ++ ("\n\n---\n" ++
        ("⚠️ CRITICAL SECURITY ISSUES ⚠️\n\nThe following issues are UNACCEPTABLE for production and must be fixed:\n\n" ++
         (joinLines ((fs.filter (hasSeverity "BLOCKER")).map codeBullet) ++
          (if !(fs.filter (hasSeverity "ERROR")).isEmpty then
            "\n\nAdditional Security Concerns:\n" ++
              joinLines ((fs.filter (hasSeverity "ERROR")).map codeBullet)
          else "") ++
          "\n\nThese are critical vulnerabilities that could lead to data breaches, system compromise,\nor unauthorized access. Do NOT proceed with implementation until these are resolved.\n\n" ++
          ("SECURITY ANALYSIS: High Risk" ++ "")))) := by
    simp only [build_curated_prompt,
      show (("High" : String) == "Low") = false from rfl,
      show (("High" : String) == "High") = true from rfl,
      show (("High" : String) == "Medium") = false from rfl,
      Bool.false_and, Bool.true_and, Bool.false_eq_true, if_false]
    rw [if_pos (by rw [hbe]; rfl)]
  refine ⟨?_, ?_, heq, by decide, by decide, by decide⟩
  · rw [heq]
    apply strContains_append_right
    apply strContains_append_right
    exact strContains_append_left _ _ _ (by decide)
  · intro b hbmem
    rw [heq]
    apply strContains_append_right
    apply strContains_append_right
    apply strContains_append_right
    apply strContains_append_left
    apply strContains_append_left
    apply strContains_append_left
    exact strContains_joinLines _ _ (List.mem_map_of_mem _ hbmem)

/-- C5 witness: the template facts at a concrete one-blocker, one-error
finding list. -/
theorem high_risk_critical_template_witness :
    strContains
      (build_curated_prompt "p" []
        "High"
        [⟨"SECURITY", "BLOCKER", "SEC_B", "bmsg", ""⟩,
         ⟨"SECURITY", "ERROR", "SEC_E", "emsg", ""⟩])
      "CRITICAL SECURITY ISSUES" = true :=
  (high_risk_critical_template "p" []
    [⟨"SECURITY", "BLOCKER", "SEC_B", "bmsg", ""⟩,
     ⟨"SECURITY", "ERROR", "SEC_E", "emsg", ""⟩] (by decide)).1

/-! ### Claim C7: populated structures outscore empty ones -/

/-- The all-empty `SpecKitStructure`. -/
def emptySpecStructure : SpecKitStructure := {}

theorem promptHeuristicBonus_nonneg (p : String) : 0 ≤ promptHeuristicBonus p := by
  simp only [promptHeuristicBonus]
  split_ifs <;> norm_num

theorem promptHeuristicBonus_le (p : String) : promptHeuristicBonus p ≤ 31 := by
  simp only [promptHeuristicBonus]
  split_ifs <;> norm_num

/-- The quality score of the all-empty structure, scored with its own six
detector warnings, reduces to the clamp of `29 +` the prompt bonus. -/
theorem score_empty_eq (pText : String) :
    compute_spec_quality_score emptySpecStructure
      (detect_missing_spec_areas emptySpecStructure) pText =
      clamp95 (29 + promptHeuristicBonus pText) := by
  unfold compute_spec_quality_score
  rw [show (detect_missing_spec_areas emptySpecStructure).length = 6 from rfl]
  norm_num [emptySpecStructure]

theorem score_empty_le (pText : String) :
    compute_spec_quality_score emptySpecStructure
      (detect_missing_spec_areas emptySpecStructure) pText ≤ 60 := by
  rw [score_empty_eq]
  have h := promptHeuristicBonus_le pText
  unfold clamp95
  omega

/-- A structure with all nine categories populated and at least 15 items in
total always scores exactly the ceiling 95, with any warnings and prompt. -/
theorem score_full_eq_95 (pText : String) (S : SpecKitStructure)
    (h1 : S.features ≠ []) (h2 : S.entities ≠ []) (h3 : S.flows ≠ [])
    (h4 : S.configuration ≠ []) (h5 : S.error_handling ≠ []) (h6 : S.testing ≠ [])
    (h7 : S.logging ≠ []) (h8 : S.authentication ≠ []) (h9 : S.data_storage ≠ [])
    (htot : 15 ≤ S.features.length + S.entities.length + S.flows.length +
      S.configuration.length + S.error_handling.length + S.testing.length +
      S.logging.length + S.authentication.length + S.data_storage.length)
    (warnings : List String) :
    compute_spec_quality_score S warnings pText = 95 := by
  have e1 : S.features.isEmpty = false :=
    Bool.eq_false_iff.mpr (fun hh => h1 (List.isEmpty_iff.mp hh))
  have e2 : S.entities.isEmpty = false :=
    Bool.eq_false_iff.mpr (fun hh => h2 (List.isEmpty_iff.mp hh))
  have e3 : S.flows.isEmpty = false :=
    Bool.eq_false_iff.mpr (fun hh => h3 (List.isEmpty_iff.mp hh))
  have e4 : S.configuration.isEmpty = false :=
    Bool.eq_false_iff.mpr (fun hh => h4 (List.isEmpty_iff.mp hh))
  have e5 : S.error_handling.isEmpty = false :=
    Bool.eq_false_iff.mpr (fun hh => h5 (List.isEmpty_iff.mp hh))
  have e6 : S.testing.isEmpty = false :=
    Bool.eq_false_iff.mpr (fun hh => h6 (List.isEmpty_iff.mp hh))
  have e7 : S.logging.isEmpty = false :=
    Bool.eq_false_iff.mpr (fun hh => h7 (List.isEmpty_iff.mp hh))
  have e8 : S.authentication.isEmpty = false :=
    Bool.eq_false_iff.mpr (fun hh => h8 (List.isEmpty_iff.mp hh))
  have e9 : S.data_storage.isEmpty = false :=
    Bool.eq_false_iff.mpr (fun hh => h9 (List.isEmpty_iff.mp hh))
  unfold compute_spec_quality_score
  simp only [List.filter_cons, List.filter_nil, List.all_cons, List.all_nil,
    List.map_cons, List.map_nil, List.sum_cons, List.sum_nil, List.cons_append,
    List.nil_append, e1, e2, e3, e4, e5, e6, e7, e8, e9, Bool.not_false,
    if_true, Bool.and_true, Bool.and_self]
  rw [if_pos (by omega)]
  have hbon := promptHeuristicBonus_nonneg pText
  have hpen0 : (0 : Int) ≤ min ((warnings.length : Int) * 3) 15 := by
    have : (0 : Int) ≤ (warnings.length : Int) * 3 := by positivity
    omega
  have hpen : min ((warnings.length : Int) * 3) 15 ≤ 15 := min_le_right _ _
  unfold clamp95
  simp only [List.length_cons, List.length_nil]
  omega

/-- C7: a structure with all nine categories populated and ≥15 total items —
scored with its own detector warnings — strictly outscores the all-empty
structure scored with its own detector warnings, whatever the two prompt
texts are. -/
theorem full_structure_outscores_empty (p1 p2 : String) (S : SpecKitStructure)
    (h1 : S.features ≠ []) (h2 : S.entities ≠ []) (h3 : S.flows ≠ [])
    (h4 : S.configuration ≠ []) (h5 : S.error_handling ≠ []) (h6 : S.testing ≠ [])
    (h7 : S.logging ≠ []) (h8 : S.authentication ≠ []) (h9 : S.data_storage ≠ [])
    (htot : 15 ≤ S.features.length + S.entities.length + S.flows.length +
      S.configuration.length + S.error_handling.length + S.testing.length +
      S.logging.length + S.authentication.length + S.data_storage.length) :
    compute_spec_quality_score emptySpecStructure
        (detect_missing_spec_areas emptySpecStructure) p2 <
      compute_spec_quality_score S (detect_missing_spec_areas S) p1 := by
  have hle := score_empty_le p2
  rw [score_full_eq_95 p1 S h1 h2 h3 h4 h5 h6 h7 h8 h9 htot
    (detect_missing_spec_areas S)]
  omega

/-- C7 witness: a concrete fully-populated 15-item structure beats the empty
structure, both scored on the empty prompt. -/
theorem full_structure_outscores_empty_witness :
    compute_spec_quality_score emptySpecStructure
        (detect_missing_spec_areas emptySpecStructure) "" <
      compute_spec_quality_score
        ⟨["list tasks", "mark tasks done"], ["task", "user"],
         ["create flow", "auth flow"], ["env config", "port"],
         ["retry", "fallback"], ["unit tests"], ["request log"],
         ["oauth login"], ["postgres", "s3 bucket"]⟩
        (detect_missing_spec_areas
          ⟨["list tasks", "mark tasks done"], ["task", "user"],
           ["create flow", "auth flow"], ["env config", "port"],
           ["retry", "fallback"], ["unit tests"], ["request log"],
           ["oauth login"], ["postgres", "s3 bucket"]⟩) "" :=
  full_structure_outscores_empty "" "" _ (by decide) (by decide) (by decide)
    (by decide) (by decide) (by decide) (by decide) (by decide) (by decide)
    (by decide)

/-! ### Claim C3: parser round-trip infrastructure

A `RawBlock` is one finding as the scanner prints it: a bracket tag line, a
message line, and an optional `Suggestion:` line.  `renderOutput` prints a
block list in the scanner's line-oriented format with one blank separator
line between consecutive blocks. -/

/-- One finding block of scanner output. -/
structure RawBlock where
  category : String
  severity : String
  code : String
  message : String
  suggestion : Option String
deriving DecidableEq, Repr

/-- The bracket tag line `[CATEGORY][SEVERITY][CODE]` of a block. -/
def tagLineOf (b : RawBlock) : List Char :=
  ((('[' :: b.category.data) ++ (']' :: '[' :: b.severity.data)) ++
    (']' :: '[' :: b.code.data)) ++ [']']

/-- The lines of one rendered block. -/
def blockLines (b : RawBlock) : List (List Char) :=
  [tagLineOf b, b.message.data] ++
    (match b.suggestion with
     | some s => ["Suggestion: ".data ++ s.data]
     | none => [])

/-- The lines of a rendered block list, blocks separated by one blank line. -/
def renderLines : List RawBlock → List (List Char)
  | [] => []
  | [b] => blockLines b
  | b :: rest => blockLines b ++ ([] :: renderLines rest)

/-- A block list rendered to raw scanner output text. -/
def renderOutput (bs : List RawBlock) : String := ⟨joinNL (renderLines bs)⟩

/-- The finding a block denotes (missing suggestion parses to `""`). -/
def findingOf (b : RawBlock) : DevSpecFinding :=
  ⟨b.category, b.severity, b.code, b.message, b.suggestion.getD ""⟩

/-- No newline characters in a line. -/
def noNL (s : List Char) : Bool := s.all (fun c => c ≠ '\n')

/-- A non-empty field whose characters all satisfy `p`. -/
def wfField (s : String) (p : Char → Bool) : Bool := !s.data.isEmpty && s.data.all p

/-- Well-formed block: bracket fields drawn from the tag character classes,
message and suggestion non-empty, newline-free, already stripped, and the
suggestion free of embedded `Suggestion:` occurrences. -/
def wfBlock (b : RawBlock) : Bool :=
  wfField b.category isUpperAZ && wfField b.severity isUpperAZ &&
  wfField b.code isCodeChar &&
  !b.message.data.isEmpty && noNL b.message.data &&
  (pyStripL b.message.data == b.message.data) &&
  (match b.suggestion with
   | none => true
   | some s =>
     !s.data.isEmpty && noNL s.data && (pyStripL s.data == s.data) &&
       !containsSub s.data "Suggestion:".data)

/-! #### Strip fixpoint lemmas -/

theorem pyStripL_fix (s : List Char) (hd : s.dropWhile isPySpace = s)
    (hr : s.reverse.dropWhile isPySpace = s.reverse) : pyStripL s = s := by
  unfold pyStripL
  rw [hd, hr, List.reverse_reverse]

theorem stripped_dropWhile (s : List Char) (hs : pyStripL s = s) :
    s.dropWhile isPySpace = s := by
  have h1 : (s.dropWhile isPySpace) <:+ s := List.dropWhile_suffix _
  apply h1.eq_of_length
  have h2 : (pyStripL s).length ≤ (s.dropWhile isPySpace).length := by
    unfold pyStripL
    rw [List.length_reverse]
    calc ((s.dropWhile isPySpace).reverse.dropWhile isPySpace).length
        ≤ (s.dropWhile isPySpace).reverse.length :=
          ((List.dropWhile_suffix _).length_le)
      _ = (s.dropWhile isPySpace).length := List.length_reverse _
  have h3 := h1.length_le
  rw [hs] at h2
  omega

theorem stripped_rev_dropWhile (s : List Char) (hs : pyStripL s = s) :
    s.reverse.dropWhile isPySpace = s.reverse := by
  have hd := stripped_dropWhile s hs
  have : pyStripL s = ((s.reverse.dropWhile isPySpace)).reverse := by
    unfold pyStripL
    rw [hd]
  rw [hs] at this
  calc s.reverse.dropWhile isPySpace
      = ((s.reverse.dropWhile isPySpace).reverse).reverse := (List.reverse_reverse _).symm
    _ = s.reverse := by rw [← this]

/-- A line with a recognizably non-space first and last character (such as a
bracket tag line) is strip-invariant. -/
theorem pyStripL_bracket (l : List Char) (t y : List Char)
    (h1 : l = '[' :: t) (h2 : l = y ++ [']']) : pyStripL l = l := by
  apply pyStripL_fix
  · rw [h1]
    simp [List.dropWhile_cons, isPySpace]
  · rw [h2, List.reverse_append]
    simp [List.dropWhile_cons, isPySpace]

/-! #### Split/join round-trip lemmas -/

theorem splitBy_noNL (l : List Char) (h : noNL l = true) :
    splitBy (fun c => c = '\n') l = [l] := by
  induction l with
  | nil => rfl
  | cons c t ih =>
    simp only [noNL, List.all_cons, Bool.and_eq_true, decide_eq_true_eq] at h
    have ht := ih h.2
    simp only [splitBy, List.append_eq, ht]
    rw [if_neg (by simpa using h.1)]

theorem splitBy_append_newline (l rest : List Char) (h : noNL l = true) :
    splitBy (fun c => c = '\n') (l ++ '\n' :: rest) =
      l :: splitBy (fun c => c = '\n') rest := by
  induction l with
  | nil =>
    simp only [List.nil_append, splitBy]
    rw [if_pos (by simp)]
  | cons c t ih =>
    simp only [noNL, List.all_cons, Bool.and_eq_true, decide_eq_true_eq] at h
    have ht := ih h.2
    simp only [List.cons_append, splitBy, List.append_eq, ht]
    rw [if_neg (by simpa using h.1)]

theorem splitBy_joinNL (lines : List (List Char)) (hne : lines ≠ [])
    (h : ∀ l ∈ lines, noNL l = true) :
    splitBy (fun c => c = '\n') (joinNL lines) = lines := by
  induction lines with
  | nil => exact absurd rfl hne
  | cons l ls ih =>
    cases ls with
    | nil =>
      show splitBy (fun c => c = '\n') (joinNL [l]) = [l]
      exact splitBy_noNL l (h l (List.mem_cons_self l []))
    | cons l2 ls2 =>
      show splitBy (fun c => c = '\n') (l ++ '\n' :: joinNL (l2 :: ls2)) = _
      rw [splitBy_append_newline l _ (h l (List.mem_cons_self l _))]
      rw [ih (by simp) (fun x hx => h x (List.mem_cons_of_mem l hx))]

/-! #### Well-formedness extractors and newline-freedom -/

theorem wfField_all (s : String) (p : Char → Bool) (h : wfField s p = true) :
    s.data.all p = true := by
  simp only [wfField, Bool.and_eq_true] at h
  exact h.2

theorem wfField_ne (s : String) (p : Char → Bool) (h : wfField s p = true) :
    s.data ≠ [] := by
  simp only [wfField, Bool.and_eq_true, Bool.not_eq_true'] at h
  exact fun hh => by
    rw [hh] at h
    simp at h

theorem noNL_of_all_class (l : List Char) (p : Char → Bool) (hp : p '\n' = false)
    (h : l.all p = true) : noNL l = true := by
  simp only [noNL, List.all_eq_true, decide_eq_true_eq] at *
  intro c hc heq
  subst heq
  exact Bool.noConfusion (hp ▸ h '\n' hc)

theorem noNL_append (a b : List Char) (ha : noNL a = true) (hb : noNL b = true) :
    noNL (a ++ b) = true := by
  simp only [noNL, List.all_append, Bool.and_eq_true]
  exact ⟨ha, hb⟩

theorem noNL_cons (c : Char) (t : List Char) (hc : c ≠ '\n') (ht : noNL t = true) :
    noNL (c :: t) = true := by
  simp only [noNL, List.all_cons, Bool.and_eq_true, decide_eq_true_eq]
  exact ⟨hc, ht⟩

/-- Destructure `wfBlock` into its seven conjuncts. -/
theorem wfBlock_parts (b : RawBlock) (h : wfBlock b = true) :
    wfField b.category isUpperAZ = true ∧ wfField b.severity isUpperAZ = true ∧
    wfField b.code isCodeChar = true ∧ b.message.data ≠ [] ∧
    noNL b.message.data = true ∧ pyStripL b.message.data = b.message.data ∧
    (∀ s, b.suggestion = some s →
      s.data ≠ [] ∧ noNL s.data = true ∧ pyStripL s.data = s.data ∧
        containsSub s.data "Suggestion:".data = false) := by
  simp only [wfBlock, Bool.and_eq_true] at h
  obtain ⟨⟨⟨⟨⟨⟨hcat, hsev⟩, hcode⟩, hm1⟩, hm2⟩, hm3⟩, hsug⟩ := h
  refine ⟨hcat, hsev, hcode, ?_, hm2, eq_of_beq hm3, ?_⟩
  · simp only [Bool.not_eq_true'] at hm1
    exact fun hh => by
      rw [hh] at hm1
      simp at hm1
  · intro s hs
    rw [hs] at hsug
    simp only [Bool.and_eq_true, Bool.not_eq_true'] at hsug
    obtain ⟨⟨⟨s1, s2⟩, s3⟩, s4⟩ := hsug
    refine ⟨?_, s2, eq_of_beq s3, s4⟩
    exact fun hh => by
      rw [hh] at s1
      simp at s1

theorem noNL_tagLine (b : RawBlock) (h : wfBlock b = true) :
    noNL (tagLineOf b) = true := by
  obtain ⟨hcat, hsev, hcode, -, -, -, -⟩ := wfBlock_parts b h
  unfold tagLineOf
  refine noNL_append _ _ (noNL_append _ _ (noNL_append _ _ ?_ ?_) ?_) (by decide)
  · exact noNL_cons _ _ (by decide)
      (noNL_of_all_class _ _ (by decide) (wfField_all _ _ hcat))
  · exact noNL_cons _ _ (by decide) (noNL_cons _ _ (by decide)
      (noNL_of_all_class _ _ (by decide) (wfField_all _ _ hsev)))
  · exact noNL_cons _ _ (by decide) (noNL_cons _ _ (by decide)
      (noNL_of_all_class _ _ (by decide) (wfField_all _ _ hcode)))

theorem noNL_renderLines (bs : List RawBlock) (h : ∀ b ∈ bs, wfBlock b = true) :
    ∀ l ∈ renderLines bs, noNL l = true := by
  induction bs with
  | nil => intro l hl; cases hl
  | cons b rest ih =>
    have hwfb := h b (List.mem_cons_self b rest)
    obtain ⟨-, -, -, -, hm2, -, hsug⟩ := wfBlock_parts b hwfb
    have hblock : ∀ l ∈ blockLines b, noNL l = true := by
      intro l hl
      unfold blockLines at hl
      cases hsb : b.suggestion with
      | none =>
        rw [hsb] at hl
        simp only [List.append_nil] at hl
        rcases List.mem_cons.mp hl with rfl | hl2
        · exact noNL_tagLine b hwfb
        · rcases List.mem_cons.mp hl2 with rfl | hl3
          · exact hm2
          · cases hl3
      | some s =>
        rw [hsb] at hl
        obtain ⟨hsne, hsnl, -, -⟩ := hsug s hsb
        rcases List.mem_cons.mp hl with rfl | hl2
        · exact noNL_tagLine b hwfb
        · rcases List.mem_cons.mp hl2 with rfl | hl3
          · exact hm2
          · rcases List.mem_cons.mp hl3 with rfl | hl4
            · exact noNL_append _ _ (by decide) hsnl
            · cases hl4
    cases rest with
    | nil =>
      intro l hl
      exact hblock l hl
    | cons r rs =>
      intro l hl
      rcases List.mem_append.mp hl with hl1 | hl2
      · exact hblock l hl1
      · rcases List.mem_cons.mp hl2 with rfl | hl3
        · rfl
        · exact ih (fun x hx => h x (List.mem_cons_of_mem b hx)) l hl3

/-! #### Last-line analysis for the trailing-strip fixpoint -/

/-- The last printed line of a block. -/
def lastLineOf (b : RawBlock) : List Char :=
  match b.suggestion with
  | some s => "Suggestion: ".data ++ s.data
  | none => b.message.data

theorem dropWhile_append_fix (p : Char → Bool) (x y : List Char)
    (hx : x.dropWhile p = x) (hne : x ≠ []) :
    (x ++ y).dropWhile p = x ++ y := by
  rw [List.dropWhile_append, hx]
  rw [if_neg (fun hh => hne (List.isEmpty_iff.mp hh))]

theorem lastLine_props (b : RawBlock) (h : wfBlock b = true) :
    lastLineOf b ≠ [] ∧
      (lastLineOf b).reverse.dropWhile isPySpace = (lastLineOf b).reverse := by
  obtain ⟨-, -, -, hm1, -, hm3, hsug⟩ := wfBlock_parts b h
  unfold lastLineOf
  cases hsb : b.suggestion with
  | none => exact ⟨hm1, stripped_rev_dropWhile _ hm3⟩
  | some s =>
    obtain ⟨hsne, -, hsstrip, -⟩ := hsug s hsb
    constructor
    · simp
    · rw [List.reverse_append]
      exact dropWhile_append_fix _ _ _ (stripped_rev_dropWhile _ hsstrip)
        (by simpa using hsne)

theorem renderLines_getLast? (bs : List RawBlock) (b : RawBlock)
    (h : bs.getLast? = some b) :
    (renderLines bs).getLast? = some (lastLineOf b) := by
  induction bs with
  | nil => cases h
  | cons b0 rest ih =>
    cases rest with
    | nil =>
      have hb : b0 = b := by
        simpa using h
      subst hb
      show (blockLines b0).getLast? = some (lastLineOf b0)
      cases hsb : b0.suggestion <;>
        simp [blockLines, lastLineOf, hsb]
    | cons r rs =>
      have h2 : (r :: rs).getLast? = some b := by
        rwa [List.getLast?_cons_cons] at h
      have ihr := ih h2
      show (blockLines b0 ++ ([] :: renderLines (r :: rs))).getLast? = _
      rw [List.getLast?_append]
      have hren : ([] :: renderLines (r :: rs)).getLast? = some (lastLineOf b) := by
        cases hr : renderLines (r :: rs) with
        | nil => rw [hr] at ihr; cases ihr
        | cons x xs =>
          rw [List.getLast?_cons_cons, ← hr]
          exact ihr
      rw [hren]
      rfl

theorem joinNL_ne_nil (lines : List (List Char)) (last : List Char)
    (h : lines.getLast? = some last) (hne : last ≠ []) : joinNL lines ≠ [] := by
  cases lines with
  | nil => cases h
  | cons l ls =>
    cases ls with
    | nil =>
      have : l = last := by simpa using h
      subst this
      simpa [joinNL] using hne
    | cons l2 ls2 =>
      show l ++ '\n' :: joinNL (l2 :: ls2) ≠ []
      simp

theorem joinNL_rev_fix (lines : List (List Char)) (last : List Char)
    (h : lines.getLast? = some last) (hne : last ≠ [])
    (hfix : last.reverse.dropWhile isPySpace = last.reverse) :
    (joinNL lines).reverse.dropWhile isPySpace = (joinNL lines).reverse := by
  induction lines with
  | nil => cases h
  | cons l ls ih =>
    cases ls with
    | nil =>
      have : l = last := by simpa using h
      subst this
      exact hfix
    | cons l2 ls2 =>
      have h2 : (l2 :: ls2).getLast? = some last := by
        rwa [List.getLast?_cons_cons] at h
      have ihr := ih h2
      have hjne : joinNL (l2 :: ls2) ≠ [] := joinNL_ne_nil _ _ h2 hne
      show (l ++ '\n' :: joinNL (l2 :: ls2)).reverse.dropWhile isPySpace =
        (l ++ '\n' :: joinNL (l2 :: ls2)).reverse
      rw [List.reverse_append, List.reverse_cons, List.append_assoc]
      apply dropWhile_append_fix _ _ _ ihr
      simpa using hjne

/-! #### Tag-line recognition -/

theorem takeWhile_all_append (p : Char → Bool) (a : List Char) (x : Char)
    (r : List Char) (ha : a.all p = true) (hx : p x = false) :
    (a ++ x :: r).takeWhile p = a := by
  induction a with
  | nil => simp [List.takeWhile_cons, hx]
  | cons c t ih =>
    simp only [List.all_cons, Bool.and_eq_true] at ha
    simp only [List.cons_append, List.takeWhile_cons, ha.1, if_true]
    rw [ih ha.2]

theorem grabField_spec (p : Char → Bool) (a : List Char) (x : Char) (r : List Char)
    (ha : a.all p = true) (hx : p x = false) (hne : a ≠ []) :
    grabField p (a ++ x :: r) = some (a, x :: r) := by
  simp only [grabField]
  rw [takeWhile_all_append p a x r ha hx]
  rw [if_neg (fun hh => hne (List.isEmpty_iff.mp hh))]
  rw [List.drop_left]

/-- The tag line in right-nested cons form. -/
theorem tagLineOf_eq (b : RawBlock) :
    tagLineOf b =
      '[' :: (b.category.data ++ (']' :: '[' ::
        (b.severity.data ++ (']' :: '[' :: (b.code.data ++ [']']))))) := by
  simp [tagLineOf, List.cons_append, List.append_assoc]

theorem pyStripL_tagLine (b : RawBlock) : pyStripL (tagLineOf b) = tagLineOf b := by
  apply pyStripL_bracket (tagLineOf b)
    (b.category.data ++ (']' :: '[' ::
      (b.severity.data ++ (']' :: '[' :: (b.code.data ++ [']'])))))
    ((('[' :: b.category.data) ++ (']' :: '[' :: b.severity.data)) ++
      (']' :: '[' :: b.code.data))
  · exact tagLineOf_eq b
  · rfl

theorem matchTag_tagLine (b : RawBlock)
    (hcat : wfField b.category isUpperAZ = true)
    (hsev : wfField b.severity isUpperAZ = true)
    (hcode : wfField b.code isCodeChar = true) :
    matchTag ⟨tagLineOf b⟩ = some (b.category, b.severity, b.code) := by
  have e2 : matchTag ⟨tagLineOf b⟩ =
      matchTag1 (b.category.data ++ (']' :: '[' ::
        (b.severity.data ++ (']' :: '[' :: (b.code.data ++ [']']))))) := by
    show (match (⟨tagLineOf b⟩ : String).data with
      | '[' :: r1 => matchTag1 r1
      | _ => none) = _
    rw [show (⟨tagLineOf b⟩ : String).data = tagLineOf b from rfl, tagLineOf_eq b]
    rfl
  rw [e2]
  unfold matchTag1
  rw [grabField_spec isUpperAZ b.category.data ']' _ (wfField_all _ _ hcat)
    (by decide) (wfField_ne _ _ hcat)]
  show matchTag2 b.category.data
    (b.severity.data ++ (']' :: '[' :: (b.code.data ++ [']']))) = _
  unfold matchTag2
  rw [grabField_spec isUpperAZ b.severity.data ']' _ (wfField_all _ _ hsev)
    (by decide) (wfField_ne _ _ hsev)]
  show matchTag3 b.category.data b.severity.data (b.code.data ++ [']']) = _
  unfold matchTag3
  rw [show b.code.data ++ [']'] = b.code.data ++ ']' :: [] from rfl]
  rw [grabField_spec isCodeChar b.code.data ']' [] (wfField_all _ _ hcode)
    (by decide) (wfField_ne _ _ hcode)]
  rfl

/-! #### Suggestion-line processing -/

theorem replaceAll_no_occ (pat rep l : List Char)
    (h : containsSub l pat = false) : replaceAll pat rep l = l := by
  induction l with
  | nil => simp [replaceAll]
  | cons c t ih =>
    rw [containsSub_cons] at h
    rcases Bool.or_eq_false_iff.mp h with ⟨h1, h2⟩
    simp only [replaceAll]
    rw [if_neg (by simp [h1])]
    rw [ih h2]

theorem replaceAll_self_head (pat rep z : List Char) (hne : pat ≠ []) :
    replaceAll pat rep (pat ++ z) = rep ++ replaceAll pat rep z := by
  cases pat with
  | nil => exact absurd rfl hne
  | cons p0 pt =>
    show replaceAll (p0 :: pt) rep (p0 :: (pt ++ z)) = _
    simp only [replaceAll]
    rw [if_pos ?hc]
    case hc =>
      rw [Bool.and_eq_true]
      exact ⟨by simp, startsWithL_self_append (p0 :: pt) z⟩
    have hdrop : (pt ++ z).drop ((p0 :: pt).length - 1) = z := by
      simp only [List.length_cons, Nat.add_sub_cancel]
      exact List.drop_left pt z
    rw [hdrop]

theorem suggestion_literal_split :
    "Suggestion: ".data = "Suggestion:".data ++ [' '] := by decide

theorem suggestion_head_split :
    "Suggestion: ".data = 'S' :: "uggestion: ".data := by decide

theorem suggestionLine_parse (s : String) (hne : s.data ≠ [])
    (hstrip : pyStripL s.data = s.data)
    (hnocc : containsSub s.data "Suggestion:".data = false) :
    pyStripL ("Suggestion: ".data ++ s.data) = "Suggestion: ".data ++ s.data ∧
    startsWithL "Suggestion:".data ("Suggestion: ".data ++ s.data) = true ∧
    pyStripL (replaceAll "Suggestion:".data [] ("Suggestion: ".data ++ s.data)) =
      s.data := by
  refine ⟨?_, ?_, ?_⟩
  · apply pyStripL_fix
    · rw [suggestion_head_split, List.cons_append, List.dropWhile_cons]
      rw [if_neg (by decide)]
    · rw [List.reverse_append]
      exact dropWhile_append_fix _ _ _ (stripped_rev_dropWhile _ hstrip)
        (by simpa using hne)
  · rw [suggestion_literal_split, List.append_assoc]
    exact startsWithL_self_append _ _
  · rw [suggestion_literal_split, List.append_assoc]
    rw [replaceAll_self_head _ _ _ (by decide)]
    have hno2 : containsSub ([' '] ++ s.data) "Suggestion:".data = false := by
      show containsSub (' ' :: s.data) _ = false
      rw [containsSub_cons]
      apply Bool.or_eq_false_iff.mpr
      refine ⟨?_, hnocc⟩
      rw [show "Suggestion:".data = 'S' :: "uggestion:".data from by decide]
      simp [startsWithL]
    rw [replaceAll_no_occ _ _ _ hno2]
    show pyStripL (' ' :: s.data) = s.data
    unfold pyStripL
    rw [List.dropWhile_cons]
    rw [if_pos (by decide)]
    rw [stripped_dropWhile _ hstrip, stripped_rev_dropWhile _ hstrip,
      List.reverse_reverse]

/-! #### Assembling the parser round-trip -/

theorem getLast?_mem {α : Type} : ∀ (l : List α) (x : α), l.getLast? = some x → x ∈ l := by
  intro l
  induction l with
  | nil => intro x h; cases h
  | cons a t ih =>
    intro x h
    cases t with
    | nil =>
      have : a = x := by simpa using h
      subst this
      exact List.mem_cons_self a []
    | cons c t2 =>
      rw [List.getLast?_cons_cons] at h
      exact List.mem_cons_of_mem a (ih x h)

theorem renderLines_ne_nil (bs : List RawBlock) (h : bs ≠ []) :
    renderLines bs ≠ [] := by
  cases bs with
  | nil => exact absurd rfl h
  | cons b rest =>
    cases rest with
    | nil => simp [renderLines, blockLines]
    | cons r rs => simp [renderLines, blockLines]

theorem renderLines_head (b : RawBlock) (rest : List RawBlock) :
    ∃ xs, renderLines (b :: rest) = tagLineOf b :: xs := by
  cases rest with
  | nil =>
    refine ⟨b.message.data :: (match b.suggestion with
      | some s => ["Suggestion: ".data ++ s.data]
      | none => []), ?_⟩
    rfl
  | cons r rs =>
    refine ⟨(b.message.data :: (match b.suggestion with
      | some s => ["Suggestion: ".data ++ s.data]
      | none => [])) ++ ([] :: renderLines (r :: rs)), ?_⟩
    rfl

theorem dropWhile_joinNL_tagHead (b : RawBlock) (xs : List (List Char)) :
    (joinNL (tagLineOf b :: xs)).dropWhile isPySpace =
      joinNL (tagLineOf b :: xs) := by
  cases xs with
  | nil =>
    show (tagLineOf b).dropWhile isPySpace = tagLineOf b
    rw [tagLineOf_eq b, List.dropWhile_cons]
    rw [if_neg (by decide)]
  | cons y ys =>
    have hj : joinNL (tagLineOf b :: y :: ys) =
        tagLineOf b ++ '\n' :: joinNL (y :: ys) := rfl
    rw [hj, tagLineOf_eq b, List.cons_append, List.dropWhile_cons]
    rw [if_neg (by decide)]

theorem strip_render_fix (bs : List RawBlock)
    (hwf : ∀ b ∈ bs, wfBlock b = true) :
    pyStripL (joinNL (renderLines bs)) = joinNL (renderLines bs) := by
  cases bs with
  | nil => rfl
  | cons b rest =>
    apply pyStripL_fix
    · obtain ⟨xs, hxs⟩ := renderLines_head b rest
      rw [hxs]
      exact dropWhile_joinNL_tagHead b xs
    · cases hgl : (b :: rest).getLast? with
      | none =>
        rw [List.getLast?_eq_none_iff] at hgl
        cases hgl
      | some bl =>
        have hwl := hwf bl (getLast?_mem _ _ hgl)
        obtain ⟨hlne, hlfix⟩ := lastLine_props bl hwl
        exact joinNL_rev_fix _ _ (renderLines_getLast? _ _ hgl) hlne hlfix

set_option maxHeartbeats 1000000 in
theorem parseLoop_renderLines (bs : List RawBlock)
    (h : ∀ b ∈ bs, wfBlock b = true) :
    parseLoop (renderLines bs) = bs.map findingOf := by
  induction bs with
  | nil => rfl
  | cons b rest ih =>
    have hwfb := h b (List.mem_cons_self b rest)
    obtain ⟨hcat, hsev, hcode, hm1, hm2, hm3, hsug⟩ := wfBlock_parts b hwfb
    have hmt : matchTag ⟨pyStripL (tagLineOf b)⟩ =
        some (b.category, b.severity, b.code) := by
      rw [pyStripL_tagLine]
      exact matchTag_tagLine b hcat hsev hcode
    cases rest with
    | nil =>
      show parseLoop (blockLines b) = [findingOf b]
      cases hsb : b.suggestion with
      | none =>
        have hbl : blockLines b = [tagLineOf b, b.message.data] := by
          simp [blockLines, hsb]
        rw [hbl]
        simp only [parseLoop, hmt]
        rw [hm3]
        simp [findingOf, hsb]
      | some s =>
        have hbl : blockLines b =
            [tagLineOf b, b.message.data, "Suggestion: ".data ++ s.data] := by
          simp [blockLines, hsb]
        obtain ⟨hsne, hsnl, hsstrip, hsnocc⟩ := hsug s hsb
        obtain ⟨sfix, sstart, srepl⟩ := suggestionLine_parse s hsne hsstrip hsnocc
        rw [hbl]
        simp only [parseLoop, hmt, sfix, sstart, if_true]
        rw [hm3, srepl]
        simp [findingOf, hsb]
    | cons r rs =>
      have hrl : renderLines (b :: r :: rs) =
          blockLines b ++ ([] :: renderLines (r :: rs)) := rfl
      rw [hrl]
      have ihr := ih (fun x hx => h x (List.mem_cons_of_mem b hx))
      cases hsb : b.suggestion with
      | none =>
        have hbl : blockLines b = [tagLineOf b, b.message.data] := by
          simp [blockLines, hsb]
        rw [hbl]
        show parseLoop (tagLineOf b :: b.message.data :: [] :: renderLines (r :: rs)) = _
        simp only [parseLoop, hmt,
          show pyStripL ([] : List Char) = [] from rfl,
          show startsWithL "Suggestion:".data [] = false from by decide,
          if_false]
        rw [hm3, ihr]
        simp [findingOf, hsb]
      | some s =>
        have hbl : blockLines b =
            [tagLineOf b, b.message.data, "Suggestion: ".data ++ s.data] := by
          simp [blockLines, hsb]
        obtain ⟨hsne, hsnl, hsstrip, hsnocc⟩ := hsug s hsb
        obtain ⟨sfix, sstart, srepl⟩ := suggestionLine_parse s hsne hsstrip hsnocc
        rw [hbl]
        show parseLoop (tagLineOf b :: b.message.data ::
          ("Suggestion: ".data ++ s.data) :: [] :: renderLines (r :: rs)) = _
        simp only [parseLoop, hmt, sfix, sstart, if_true]
        rw [hm3, srepl, ihr]
        simp [findingOf, hsb]

set_option maxHeartbeats 1000000 in
/-- C3 (amended): the parser is total, reconstructs one finding per block in
well-formed scanner output (tag line, message line, optional `Suggestion:`
line, one blank separator line between blocks) — a missing suggestion line
does not lose the finding itself — but after a tag and message it always
consumes one more line as the suggestion candidate, so when two blocks abut
with no separator line the second block's tag line is swallowed and that
finding is lost. -/
theorem parse_devspec_output_roundtrip :
    (∀ bs : List RawBlock, (∀ b ∈ bs, wfBlock b = true) →
      parse_devspec_output (renderOutput bs) = bs.map findingOf) ∧
    (∀ b1 b2 : RawBlock, wfBlock b1 = true → wfBlock b2 = true →
      b1.suggestion = none → b2.suggestion = none →
      matchTag b2.message = none →
      parse_devspec_output ⟨joinNL (blockLines b1 ++ blockLines b2)⟩ =
        [findingOf b1]) := by
  constructor
  · intro bs hwf
    cases bs with
    | nil => rfl
    | cons b rest =>
      show parseLoop (splitBy (fun c => c = '\n')
        (pyStripL (joinNL (renderLines (b :: rest))))) = _
      rw [strip_render_fix _ hwf]
      rw [splitBy_joinNL _ (renderLines_ne_nil _ (by simp))
        (noNL_renderLines _ hwf)]
      exact parseLoop_renderLines _ hwf
  · intro b1 b2 hw1 hw2 hs1 hs2 hmt2
    obtain ⟨hcat1, hsev1, hcode1, hm11, hm12, hm13, -⟩ := wfBlock_parts b1 hw1
    obtain ⟨-, -, -, hm21, hm22, hm23, -⟩ := wfBlock_parts b2 hw2
    have hbl1 : blockLines b1 = [tagLineOf b1, b1.message.data] := by
      simp [blockLines, hs1]
    have hbl2 : blockLines b2 = [tagLineOf b2, b2.message.data] := by
      simp [blockLines, hs2]
    have hlines : blockLines b1 ++ blockLines b2 =
        [tagLineOf b1, b1.message.data, tagLineOf b2, b2.message.data] := by
      rw [hbl1, hbl2]
      rfl
    show parseLoop (splitBy (fun c => c = '\n')
      (pyStripL (joinNL (blockLines b1 ++ blockLines b2)))) = _
    rw [hlines]
    have hfix : pyStripL (joinNL
        [tagLineOf b1, b1.message.data, tagLineOf b2, b2.message.data]) =
        joinNL [tagLineOf b1, b1.message.data, tagLineOf b2, b2.message.data] := by
      apply pyStripL_fix
      · exact dropWhile_joinNL_tagHead b1 _
      · exact joinNL_rev_fix _ b2.message.data (by simp) hm21
          (stripped_rev_dropWhile _ hm23)
    rw [hfix]
    rw [splitBy_joinNL _ (by simp) ?nl]
    case nl =>
      intro l hl
      rcases List.mem_cons.mp hl with rfl | hl2
      · exact noNL_tagLine b1 hw1
      · rcases List.mem_cons.mp hl2 with rfl | hl3
        · exact hm12
        · rcases List.mem_cons.mp hl3 with rfl | hl4
          · exact noNL_tagLine b2 hw2
          · rcases List.mem_cons.mp hl4 with rfl | hl5
            · exact hm22
            · cases hl5
    have hmt1 : matchTag ⟨pyStripL (tagLineOf b1)⟩ =
        some (b1.category, b1.severity, b1.code) := by
      rw [pyStripL_tagLine]
      exact matchTag_tagLine b1 hcat1 hsev1 hcode1
    have hnostart : startsWithL "Suggestion:".data (tagLineOf b2) = false := by
      rw [tagLineOf_eq b2,
        show "Suggestion:".data = 'S' :: "uggestion:".data from by decide]
      simp [startsWithL]
    have hmm : matchTag ⟨pyStripL b2.message.data⟩ = none := by
      rw [hm23]
      exact hmt2
    simp only [parseLoop, hmt1, pyStripL_tagLine b2, hnostart, if_false, hmm]
    rw [hm13]
    simp [findingOf, hs1]

/-- C3 witness: the round-trip on a concrete two-block output, the second
block without a suggestion line. -/
theorem parse_devspec_output_roundtrip_witness :
    parse_devspec_output (renderOutput
      [⟨"SECURITY", "BLOCKER", "SEC_X1", "Message one", some "Fix it"⟩,
       ⟨"ARCH", "WARNING", "ARCH_VAGUE_DB", "Vague database", none⟩]) =
      [⟨"SECURITY", "BLOCKER", "SEC_X1", "Message one", "Fix it"⟩,
       ⟨"ARCH", "WARNING", "ARCH_VAGUE_DB", "Vague database", ""⟩] :=
  parse_devspec_output_roundtrip.1
    [⟨"SECURITY", "BLOCKER", "SEC_X1", "Message one", some "Fix it"⟩,
     ⟨"ARCH", "WARNING", "ARCH_VAGUE_DB", "Vague database", none⟩]
    (by decide)

/-- C3 counterexample: when a tag line directly follows a message line (no
suggestion line and no blank separator), the parser loses the second tag
line: two findings in, one finding out — refuting the claim that a missing
suggestion line never causes a following tag line to be lost. -/
theorem parser_loses_adjacent_tag_line :
    parse_devspec_output
        "[SECURITY][ERROR][SEC_A]\nmsg one\n[SECURITY][ERROR][SEC_B]\nmsg two" =
      [⟨"SECURITY", "ERROR", "SEC_A", "msg one", ""⟩] := by decide

end Orchestrator
